import Mathlib

/-!
Verification development for the CSRF protection engine in
src/lib/csrf/server.ts of knetcode/entrostat-client.

The TypeScript source is shallowly embedded: bytes are Nat values below 256,
byte buffers are List Nat, JavaScript strings are Lean String values, the
HMAC-SHA-256 primitive, the wall clock and the random nonce source are
explicit parameters, and response mutation is explicit state passing on a
Response value.  The codec is modelled on the Node/Buffer branch of
bytesToBase64/base64ToBytes (total and lenient: characters outside the
base64 alphabet, including padding, are skipped on decode); the btoa/atob
branch, which is strict, is modelled separately where a claim depends on it.
-/

set_option linter.unusedVariables false

namespace EntrostatCsrf

/-- the standard base64 alphabet in index order, as used by both the Buffer
and the btoa/atob branches of the codec in server.ts. -/
def b64Alphabet : List Char :=
  "ABCDEFGHIJKLMNOPQRSTUVWXYZabcdefghijklmnopqrstuvwxyz0123456789+/".data

/-- character encoding a 6-bit value. -/
def b64Char (v : Nat) : Char := b64Alphabet.getD v 'A'

/-- first index of a character in a character list, starting the count at i. -/
def charIndexIn : List Char → Char → Nat → Option Nat
  | [], _, _ => none
  | a :: rest, c, i => if a == c then some i else charIndexIn rest c (i + 1)

/-- 6-bit value of a base64 alphabet character; none outside the alphabet. -/
def b64CharVal (c : Char) : Option Nat := charIndexIn b64Alphabet c 0

/-- base64 encoding of a byte list, three bytes to four characters, with
trailing '=' padding; models Buffer.from(bytes).toString("base64") as used
by bytesToBase64 (server.ts lines 63 to 74). -/
def b64EncodeGroups : List Nat → List Char
  | [] => []
  | [b1] => [b64Char (b1 / 4), b64Char (b1 % 4 * 16), '=', '=']
  | [b1, b2] => [b64Char (b1 / 4), b64Char (b1 % 4 * 16 + b2 / 16), b64Char (b2 % 16 * 4), '=']
  | b1 :: b2 :: b3 :: rest =>
      b64Char (b1 / 4) :: b64Char (b1 % 4 * 16 + b2 / 16) ::
      b64Char (b2 % 16 * 4 + b3 / 64) :: b64Char (b3 % 64) :: b64EncodeGroups rest

/-- bytesToBase64 (server.ts lines 63 to 74), Buffer branch. -/
def bytesToBase64 (bytes : List Nat) : List Char := b64EncodeGroups bytes

/-- the character substitution of toBase64Url: '+' to '-' and '/' to '_'. -/
def urlSwapChar (c : Char) : Char :=
  if c == '+' then '-' else if c == '/' then '_' else c

/-- the character substitution of fromBase64Url: '-' to '+' and '_' to '/'. -/
def urlUnswapChar (c : Char) : Char :=
  if c == '-' then '+' else if c == '_' then '/' else c

/-- removal of trailing '=' characters, the replace of the regex =+$ in
toBase64Url (server.ts line 55). -/
def dropTrailingEq (cs : List Char) : List Char :=
  (cs.reverse.dropWhile (fun c => c == '=')).reverse

/-- toBase64Url (server.ts lines 53 to 56): base64 encode, swap '+' and '/'
for their url-safe counterparts, strip the trailing padding. -/
def toBase64Url (bytes : List Nat) : String :=
  String.mk (dropTrailingEq ((bytesToBase64 bytes).map urlSwapChar))

/-- base64 decoding of a 6-bit value list, four values to three bytes; a
trailing group of two or three values yields one or two bytes, a lone
trailing value is dropped. -/
def b64DecodeVals : List Nat → List Nat
  | v1 :: v2 :: v3 :: v4 :: rest =>
      (v1 * 4 + v2 / 16) :: (v2 % 16 * 16 + v3 / 4) :: (v3 % 4 * 64 + v4) :: b64DecodeVals rest
  | [v1, v2, v3] => [v1 * 4 + v2 / 16, v2 % 16 * 16 + v3 / 4]
  | [v1, v2] => [v1 * 4 + v2 / 16]
  | _ => []

/-- base64ToBytes (server.ts lines 76 to 87), Buffer branch: lenient decode
that skips characters outside the alphabet, padding included. -/
def base64ToBytes (chars : List Char) : List Nat :=
  b64DecodeVals (chars.filterMap b64CharVal)

/-- fromBase64Url (server.ts lines 58 to 61): swap back the url-safe
characters, then base64 decode. -/
def fromBase64Url (s : String) : List Nat :=
  base64ToBytes (s.data.map urlUnswapChar)

/-- u32ToBigEndianBytes (server.ts lines 101 to 108); the JavaScript shifts
coerce the operand to an unsigned 32-bit value, hence the initial modulus. -/
def u32ToBigEndianBytes (value : Nat) : List Nat :=
  [value % 4294967296 / 16777216 % 256, value % 4294967296 / 65536 % 256,
   value % 4294967296 / 256 % 256, value % 4294967296 % 256]

/-- bigEndianBytesToU32 (server.ts lines 110 to 113); the inputs at every
call site are bytes below 256, for which the shift-or-shift composition is
plain base-256 positional value. -/
def bigEndianBytesToU32 (bytes : List Nat) : Nat :=
  match bytes with
  | [b0, b1, b2, b3] => b0 * 16777216 + b1 * 65536 + b2 * 256 + b3
  | _ => 0

/-! Auxiliary decomposition of the encoder used in the round-trip proof. -/

/-- the sequence of 6-bit values of the base64 encoding, without padding. -/
def b64Vals : List Nat → List Nat
  | [] => []
  | [b1] => [b1 / 4, b1 % 4 * 16]
  | [b1, b2] => [b1 / 4, b1 % 4 * 16 + b2 / 16, b2 % 16 * 4]
  | b1 :: b2 :: b3 :: rest =>
      b1 / 4 :: (b1 % 4 * 16 + b2 / 16) :: (b2 % 16 * 4 + b3 / 64) :: b3 % 64 :: b64Vals rest

/-- number of '=' padding characters of the base64 encoding. -/
def b64PadLen : List Nat → Nat
  | [] => 0
  | [_] => 2
  | [_, _] => 1
  | _ :: _ :: _ :: rest => b64PadLen rest

theorem b64EncodeGroups_decomp (bytes : List Nat) :
    b64EncodeGroups bytes = (b64Vals bytes).map b64Char ++ List.replicate (b64PadLen bytes) '=' := by
  induction bytes using b64Vals.induct with
  | case1 => rfl
  | case2 b1 => rfl
  | case3 b1 b2 => rfl
  | case4 b1 b2 b3 rest ih =>
      simp [b64EncodeGroups, b64Vals, b64PadLen, ih]

theorem b64Vals_lt_64 (bytes : List Nat) (hb : ∀ b ∈ bytes, b < 256) :
    ∀ v ∈ b64Vals bytes, v < 64 := by
  induction bytes using b64Vals.induct with
  | case1 => intro v hv; simp [b64Vals] at hv
  | case2 b1 =>
      intro v hv
      have h1 : b1 < 256 := hb b1 (by simp)
      simp [b64Vals] at hv
      rcases hv with h | h <;> omega
  | case3 b1 b2 =>
      intro v hv
      have h1 : b1 < 256 := hb b1 (by simp)
      have h2 : b2 < 256 := hb b2 (by simp)
      simp [b64Vals] at hv
      rcases hv with h | h | h <;> omega
  | case4 b1 b2 b3 rest ih =>
      intro v hv
      have h1 : b1 < 256 := hb b1 (by simp)
      have h2 : b2 < 256 := hb b2 (by simp)
      have h3 : b3 < 256 := hb b3 (by simp)
      simp [b64Vals] at hv
      rcases hv with h | h | h | h | h
      · omega
      · omega
      · omega
      · omega
      · exact ih (fun b hbm => hb b (by simp [hbm])) v h

theorem b64DecodeVals_b64Vals (bytes : List Nat) (hb : ∀ b ∈ bytes, b < 256) :
    b64DecodeVals (b64Vals bytes) = bytes := by
  induction bytes using b64Vals.induct with
  | case1 => rfl
  | case2 b1 =>
      have h1 : b1 < 256 := hb b1 (by simp)
      simp [b64Vals, b64DecodeVals]
      omega
  | case3 b1 b2 =>
      have h1 : b1 < 256 := hb b1 (by simp)
      have h2 : b2 < 256 := hb b2 (by simp)
      simp [b64Vals, b64DecodeVals]
      constructor <;> omega
  | case4 b1 b2 b3 rest ih =>
      have h1 : b1 < 256 := hb b1 (by simp)
      have h2 : b2 < 256 := hb b2 (by simp)
      have h3 : b3 < 256 := hb b3 (by simp)
      have hrest := ih (fun b hbm => hb b (by simp [hbm]))
      simp [b64Vals, b64DecodeVals, hrest]
      refine ⟨by omega, by omega, by omega⟩

theorem b64Char_facts :
    ∀ v < 64, b64CharVal (urlUnswapChar (urlSwapChar (b64Char v))) = some v ∧
      urlSwapChar (b64Char v) ≠ '=' := by decide

theorem dropWhile_eq_self_of_not (m : List Char) (hm : ∀ c ∈ m, (c == '=') = false) :
    m.dropWhile (fun c => c == '=') = m := by
  cases m with
  | nil => rfl
  | cons a as => simp [List.dropWhile_cons, hm a (by simp)]

theorem dropTrailingEq_append (l : List Char) (k : Nat)
    (h : ∀ c ∈ l, (c == '=') = false) :
    dropTrailingEq (l ++ List.replicate k '=') = l := by
  unfold dropTrailingEq
  rw [List.reverse_append, List.reverse_replicate]
  have hrep : ∀ (n : Nat) (m : List Char),
      (List.replicate n '=' ++ m).dropWhile (fun c => c == '=') =
        m.dropWhile (fun c => c == '=') := by
    intro n
    induction n with
    | zero => intro m; rfl
    | succ n ih => intro m; simp [List.replicate_succ, List.dropWhile_cons, ih]
  rw [hrep]
  rw [dropWhile_eq_self_of_not l.reverse (fun c hc => h c (List.mem_reverse.mp hc))]
  exact List.reverse_reverse l

theorem filterMap_recover (vs : List Nat) (hv : ∀ v ∈ vs, v < 64) :
    vs.filterMap (fun v => b64CharVal (urlUnswapChar (urlSwapChar (b64Char v)))) = vs := by
  induction vs with
  | nil => rfl
  | cons v rest ih =>
      have hv0 := (b64Char_facts v (hv v (by simp))).1
      simp only [List.filterMap_cons, hv0]
      rw [ih (fun w hw => hv w (by simp [hw]))]

/-- C9: for every byte buffer (each entry below 256), including the empty
buffer, fromBase64Url inverts toBase64Url, and toBase64Url emits no '='
padding character. -/
theorem base64url_roundtrip (bytes : List Nat) (hb : ∀ b ∈ bytes, b < 256) :
    fromBase64Url (toBase64Url bytes) = bytes ∧ '=' ∉ (toBase64Url bytes).data := by
  have hvals := b64Vals_lt_64 bytes hb
  have hne : ∀ c ∈ (b64Vals bytes).map (fun v => urlSwapChar (b64Char v)), (c == '=') = false := by
    intro c hc
    rcases List.mem_map.mp hc with ⟨v, hvmem, rfl⟩
    have := (b64Char_facts v (hvals v hvmem)).2
    simpa using this
  have hdata : (toBase64Url bytes).data =
      (b64Vals bytes).map (fun v => urlSwapChar (b64Char v)) := by
    show dropTrailingEq ((bytesToBase64 bytes).map urlSwapChar) = _
    rw [bytesToBase64, b64EncodeGroups_decomp, List.map_append, List.map_replicate]
    have : urlSwapChar '=' = '=' := rfl
    rw [this, List.map_map]
    exact dropTrailingEq_append _ _ hne
  constructor
  · show base64ToBytes ((toBase64Url bytes).data.map urlUnswapChar) = bytes
    rw [hdata, base64ToBytes]
    have hfm : (((b64Vals bytes).map (fun v => urlSwapChar (b64Char v))).map urlUnswapChar).filterMap
        b64CharVal = b64Vals bytes := by
      rw [List.map_map, List.filterMap_map]
      have := filterMap_recover (b64Vals bytes) hvals
      simpa [Function.comp] using this
    rw [hfm]
    exact b64DecodeVals_b64Vals bytes hb
  · rw [hdata]
    intro hmem
    rcases List.mem_map.mp hmem with ⟨v, hvmem, heq⟩
    exact (b64Char_facts v (hvals v hvmem)).2 heq

/-- C9 witness: the round trip evaluated on a concrete three-byte buffer. -/
theorem base64url_roundtrip_witness :
    (∀ b ∈ ([0, 255, 17, 254] : List Nat), b < 256) ∧
      fromBase64Url (toBase64Url [0, 255, 17, 254]) = [0, 255, 17, 254] ∧
      '=' ∉ (toBase64Url [0, 255, 17, 254]).data :=
  ⟨by decide, (base64url_roundtrip [0, 255, 17, 254] (by decide)).1,
    (base64url_roundtrip [0, 255, 17, 254] (by decide)).2⟩

/-! String utilities mirroring the JavaScript primitives the source uses. -/

/-- split of a character list at every occurrence of a separator character;
models String.prototype.split with a one-character separator, which keeps
empty segments. -/
def splitOnChar (sep : Char) : List Char → List (List Char)
  | [] => [[]]
  | c :: cs =>
      match splitOnChar sep cs with
      | [] => [[]]
      | g :: gs => if c == sep then [] :: g :: gs else (c :: g) :: gs

/-- split of a string at a separator character, as a list of strings. -/
def jsSplit (sep : Char) (s : String) : List String :=
  (splitOnChar sep s.data).map String.mk

/-- models String.prototype.startsWith. -/
def strStartsWith (s p : String) : Bool := p.data.isPrefixOf s.data

/-- models String.prototype.endsWith. -/
def strEndsWith (s p : String) : Bool := p.data.isSuffixOf s.data

/-- substring occurrence on character lists. -/
def includesChars (needle : List Char) : List Char → Bool
  | [] => needle.isPrefixOf []
  | c :: rest => needle.isPrefixOf (c :: rest) || includesChars needle rest

/-- models String.prototype.includes. -/
def strIncludes (needle hay : String) : Bool := includesChars needle.data hay.data

/-- models String.prototype.toLowerCase (simple case mapping). -/
def jsToLower (s : String) : String := String.mk (s.data.map Char.toLower)

/-- JavaScript string truthiness of a string-or-null value: false exactly
for null and for the empty string. -/
def optTruthy : Option String → Bool
  | none => false
  | some s => s != ""

/-! Constant-time comparisons and the token primitives. -/

/-- the XOR-accumulate comparison of two byte lists after a length check,
as written inline in verifySignedTokenWithTTL (server.ts lines 193 to 198). -/
def constTimeEqBytes (a b : List Nat) : Bool :=
  if a.length != b.length then false
  else ((List.zipWith (fun x y => Nat.xor x y) a b).foldl (fun x y => Nat.lor x y) 0) == 0

/-- the XOR-accumulate comparison of two character lists by char codes, the
loop of validateCSRFToken (server.ts lines 263 to 272). -/
def constTimeEqChars (a b : List Char) : Bool :=
  if a.length != b.length then false
  else ((List.zipWith (fun x y => Nat.xor x.toNat y.toNat) a b).foldl (fun x y => Nat.lor x y) 0) == 0

theorem lor_eq_zero_iff (x y : Nat) : x ||| y = 0 ↔ x = 0 ∧ y = 0 := by
  constructor
  · intro h
    constructor
    · by_contra hx
      rcases Nat.exists_most_significant_bit hx with ⟨i, hi, _⟩
      have h2 : (x ||| y).testBit i = true := by simp [Nat.testBit_lor, hi]
      rw [h] at h2
      simp [Nat.zero_testBit] at h2
    · by_contra hy
      rcases Nat.exists_most_significant_bit hy with ⟨i, hi, _⟩
      have h2 : (x ||| y).testBit i = true := by simp [Nat.testBit_lor, hi]
      rw [h] at h2
      simp [Nat.zero_testBit] at h2
  · rintro ⟨rfl, rfl⟩
    rfl

theorem foldl_lor_eq_zero (l : List Nat) (acc : Nat) :
    (l.foldl (fun x y => Nat.lor x y) acc = 0) ↔ (acc = 0 ∧ ∀ x ∈ l, x = 0) := by
  induction l generalizing acc with
  | nil => simp
  | cons a rest ih =>
      simp only [List.foldl_cons, ih, List.mem_cons]
      rw [show Nat.lor acc a = acc ||| a from rfl, lor_eq_zero_iff]
      constructor
      · rintro ⟨⟨h1, h2⟩, h3⟩
        refine ⟨h1, fun x hx => ?_⟩
        rcases hx with rfl | hx
        · exact h2
        · exact h3 x hx
      · rintro ⟨h1, h2⟩
        exact ⟨⟨h1, h2 a (Or.inl rfl)⟩, fun x hx => h2 x (Or.inr hx)⟩

theorem zipWith_xor_all_zero (a b : List Nat) (hlen : a.length = b.length) :
    (∀ x ∈ List.zipWith (fun x y => Nat.xor x y) a b, x = 0) ↔ a = b := by
  induction a generalizing b with
  | nil =>
      cases b with
      | nil => simp
      | cons y ys => simp at hlen
  | cons x xs ih =>
      cases b with
      | nil => simp at hlen
      | cons y ys =>
          simp only [List.zipWith_cons_cons, List.mem_cons, List.cons.injEq]
          constructor
          · intro h
            have hx : Nat.xor x y = 0 := h _ (Or.inl rfl)
            exact ⟨Nat.xor_eq_zero.mp hx,
              (ih ys (by simpa using hlen)).mp (fun z hz => h z (Or.inr hz))⟩
          · rintro ⟨rfl, rfl⟩
            intro z hz
            rcases hz with rfl | hz
            · exact Nat.xor_self x
            · exact (ih xs rfl).mpr rfl z hz

theorem constTimeEqBytes_iff (a b : List Nat) : constTimeEqBytes a b = true ↔ a = b := by
  unfold constTimeEqBytes
  by_cases hlen : a.length = b.length
  · simp only [hlen, bne_self_eq_false, Bool.false_eq_true, if_false, beq_iff_eq,
      foldl_lor_eq_zero, true_and]
    exact zipWith_xor_all_zero a b hlen
  · have hb : (a.length != b.length) = true := by simpa using hlen
    simp only [hb, if_true]
    constructor
    · intro h
      simp at h
    · intro h
      exact absurd (by rw [h]) hlen

theorem char_toNat_inj (a b : Char) (h : a.toNat = b.toNat) : a = b :=
  Char.eq_of_val_eq (UInt32.ext h)

theorem zipWith_char_xor_all_zero (a b : List Char) (hlen : a.length = b.length) :
    (∀ x ∈ List.zipWith (fun (x y : Char) => Nat.xor x.toNat y.toNat) a b, x = 0) ↔ a = b := by
  induction a generalizing b with
  | nil =>
      cases b with
      | nil => simp
      | cons y ys => simp at hlen
  | cons x xs ih =>
      cases b with
      | nil => simp at hlen
      | cons y ys =>
          simp only [List.zipWith_cons_cons, List.mem_cons, List.cons.injEq]
          constructor
          · intro h
            have hx : Nat.xor x.toNat y.toNat = 0 := h _ (Or.inl rfl)
            exact ⟨char_toNat_inj x y (Nat.xor_eq_zero.mp hx),
              (ih ys (by simpa using hlen)).mp (fun z hz => h z (Or.inr hz))⟩
          · rintro ⟨rfl, rfl⟩
            intro z hz
            rcases hz with rfl | hz
            · exact Nat.xor_self x.toNat
            · exact (ih xs rfl).mpr rfl z hz

theorem constTimeEqChars_iff (a b : List Char) : constTimeEqChars a b = true ↔ a = b := by
  unfold constTimeEqChars
  by_cases hlen : a.length = b.length
  · simp only [hlen, bne_self_eq_false, Bool.false_eq_true, if_false, beq_iff_eq,
      foldl_lor_eq_zero, true_and]
    exact zipWith_char_xor_all_zero a b hlen
  · have hb : (a.length != b.length) = true := by simpa using hlen
    simp only [hb, if_true]
    constructor
    · intro h
      simp at h
    · intro h
      exact absurd (by rw [h]) hlen

/-! The token primitives of server.ts. -/

/-- Hmac abbreviates the signature of the HMAC-SHA-256 primitive, message
then raw key to signature bytes; hmacSha256 (server.ts lines 89 to 99) is a
platform call and is passed in as a parameter everywhere it is used. -/
abbrev Hmac := List Nat → List Nat → List Nat

/-- generateCSRFToken (server.ts lines 47 to 51); the random bytes are the
randomBytes parameter. -/
def generateCSRFToken (randomBytes : List Nat) : String :=
  String.mk (bytesToBase64 randomBytes)

/-- generateSignedToken (server.ts lines 115 to 125): nonce, big-endian
timestamp and HMAC signature, each base64url, joined by dots.  The random
nonce and the current epoch second are parameters. -/
def generateSignedToken (hmac : Hmac) (now : Nat) (nonceBytes : List Nat) (secret : String) : String :=
  let tsBytes := u32ToBigEndianBytes now
  let sig := hmac (nonceBytes ++ tsBytes) (base64ToBytes secret.data)
  toBase64Url nonceBytes ++ "." ++ toBase64Url tsBytes ++ "." ++ toBase64Url sig

/-- parseMultipleTokens (server.ts lines 130 to 133): falsy cookie values
give the empty list, otherwise split on the bar and drop empty segments. -/
def parseMultipleTokens (cookieValue : Option String) : List String :=
  match cookieValue with
  | none => []
  | some s => if s == "" then [] else (jsSplit '|' s).filter (fun t => t != "")

/-- combineTokens (server.ts lines 138 to 140). -/
def combineTokens (tokens : List String) : String :=
  String.intercalate "|" tokens

/-- cleanupExpiredTokens (server.ts lines 145 to 169): keep a token when it
has three dot segments, a 4-byte decoded timestamp, and an issuedAt within
the grace period of now; the secret parameter is unused in the source too. -/
def cleanupExpiredTokens (now : Nat) (tokens : List String) (secret : String)
    (gracePeriodSeconds : Int) : List String :=
  match tokens with
  | [] => []
  | token :: rest =>
      match jsSplit '.' token with
      | [_, tsPart, _] =>
          let tsBytes := fromBase64Url tsPart
          if tsBytes.length != 4 then cleanupExpiredTokens now rest secret gracePeriodSeconds
          else if decide ((now : Int) - bigEndianBytesToU32 tsBytes ≤ gracePeriodSeconds) then
            token :: cleanupExpiredTokens now rest secret gracePeriodSeconds
          else cleanupExpiredTokens now rest secret gracePeriodSeconds
      | _ => cleanupExpiredTokens now rest secret gracePeriodSeconds

/-- body of verifySignedTokenWithTTL once the token has split into exactly
three segments (server.ts lines 179 to 198). -/
def verifyParts (hmac : Hmac) (now : Nat) (noncePart tsPart sigPart secret : String)
    (ttlSeconds allowedSkewSeconds : Int) : Bool :=
  let nonceBytes := fromBase64Url noncePart
  let tsBytes := fromBase64Url tsPart
  if tsBytes.length != 4 then false
  else
    let issuedAt := bigEndianBytesToU32 tsBytes
    if issuedAt == 0 then false
    else if decide ((now : Int) + allowedSkewSeconds < issuedAt) then false
    else if decide ((now : Int) - issuedAt > ttlSeconds + allowedSkewSeconds) then false
    else
      let expectedSig := hmac (nonceBytes ++ tsBytes) (base64ToBytes secret.data)
      let providedSig := fromBase64Url sigPart
      constTimeEqBytes expectedSig providedSig

/-- verifySignedTokenWithTTL (server.ts lines 171 to 199). -/
def verifySignedTokenWithTTL (hmac : Hmac) (now : Nat) (token secret : String)
    (ttlSeconds allowedSkewSeconds : Int) : Bool :=
  match jsSplit '.' token with
  | [noncePart, tsPart, sigPart] =>
      verifyParts hmac now noncePart tsPart sigPart secret ttlSeconds allowedSkewSeconds
  | _ => false

/-- validateCSRFToken (server.ts lines 257 to 273): falsy inputs fail, then
length check and XOR-accumulate comparison of char codes. -/
def validateCSRFToken (requestToken cookieToken : Option String) : Bool :=
  if !optTruthy requestToken || !optTruthy cookieToken then false
  else constTimeEqChars (requestToken.getD "").data (cookieToken.getD "").data

/-- loop of verifyTokenWithGracePeriod searching the parsed cookie tokens
for one equal to the header token (server.ts lines 219 to 225). -/
def anyTokenMatches (headerToken : String) : List String → Bool
  | [] => false
  | cookieToken :: rest =>
      validateCSRFToken (some headerToken) (some cookieToken) || anyTokenMatches headerToken rest

/-- verifyTokenWithGracePeriod (server.ts lines 205 to 231). -/
def verifyTokenWithGracePeriod (hmac : Hmac) (now : Nat) (cookieValue headerToken : Option String)
    (secret : String) (ttlSeconds allowedSkewSeconds : Int) : Bool :=
  if !optTruthy cookieValue || !optTruthy headerToken then false
  else if (parseMultipleTokens cookieValue).length == 0 then false
  else if !anyTokenMatches (headerToken.getD "") (parseMultipleTokens cookieValue) then false
  else verifySignedTokenWithTTL hmac now (headerToken.getD "") secret ttlSeconds allowedSkewSeconds

theorem verify_split_ne_three (hmac : Hmac) (now : Nat) (token secret : String)
    (ttl skew : Int) (h : (jsSplit '.' token).length ≠ 3) :
    verifySignedTokenWithTTL hmac now token secret ttl skew = false := by
  unfold verifySignedTokenWithTTL
  rcases hs : jsSplit '.' token with _ | ⟨a, _ | ⟨b, _ | ⟨c, _ | ⟨d, rest⟩⟩⟩⟩ <;>
    first
      | rfl
      | (exact absurd (by rw [hs]; rfl) h)

theorem verifyParts_ts_not4 (hmac : Hmac) (now : Nat) (noncePart tsPart sigPart secret : String)
    (ttl skew : Int) (h : (fromBase64Url tsPart).length ≠ 4) :
    verifyParts hmac now noncePart tsPart sigPart secret ttl skew = false := by
  have hb : ((fromBase64Url tsPart).length != 4) = true := by simpa using h
  simp only [verifyParts, hb, if_true]

theorem verifyParts_issued_zero (hmac : Hmac) (now : Nat)
    (noncePart tsPart sigPart secret : String) (ttl skew : Int)
    (h : bigEndianBytesToU32 (fromBase64Url tsPart) = 0) :
    verifyParts hmac now noncePart tsPart sigPart secret ttl skew = false := by
  by_cases hlen : (fromBase64Url tsPart).length = 4
  · have hb : ((fromBase64Url tsPart).length != 4) = false := by simpa using hlen
    have hz : (bigEndianBytesToU32 (fromBase64Url tsPart) == 0) = true := by simpa using h
    simp only [verifyParts, hb, Bool.false_eq_true, if_false, hz, if_true]
  · exact verifyParts_ts_not4 hmac now noncePart tsPart sigPart secret ttl skew hlen

theorem verifyParts_future (hmac : Hmac) (now : Nat)
    (noncePart tsPart sigPart secret : String) (ttl skew : Int)
    (h : (now : Int) + skew < bigEndianBytesToU32 (fromBase64Url tsPart)) :
    verifyParts hmac now noncePart tsPart sigPart secret ttl skew = false := by
  by_cases hlen : (fromBase64Url tsPart).length = 4
  · by_cases hz : bigEndianBytesToU32 (fromBase64Url tsPart) = 0
    · exact verifyParts_issued_zero hmac now noncePart tsPart sigPart secret ttl skew hz
    · have hb : ((fromBase64Url tsPart).length != 4) = false := by simpa using hlen
      have hz' : (bigEndianBytesToU32 (fromBase64Url tsPart) == 0) = false := by simpa using hz
      have hd : decide ((now : Int) + skew < bigEndianBytesToU32 (fromBase64Url tsPart)) = true :=
        decide_eq_true h
      simp only [verifyParts, hb, Bool.false_eq_true, if_false, hz', hd, if_true]
  · exact verifyParts_ts_not4 hmac now noncePart tsPart sigPart secret ttl skew hlen

theorem verifyParts_expired (hmac : Hmac) (now : Nat)
    (noncePart tsPart sigPart secret : String) (ttl skew : Int)
    (h : (now : Int) - bigEndianBytesToU32 (fromBase64Url tsPart) > ttl + skew) :
    verifyParts hmac now noncePart tsPart sigPart secret ttl skew = false := by
  by_cases hlen : (fromBase64Url tsPart).length = 4
  · by_cases hz : bigEndianBytesToU32 (fromBase64Url tsPart) = 0
    · exact verifyParts_issued_zero hmac now noncePart tsPart sigPart secret ttl skew hz
    · by_cases hf : (now : Int) + skew < bigEndianBytesToU32 (fromBase64Url tsPart)
      · exact verifyParts_future hmac now noncePart tsPart sigPart secret ttl skew hf
      · have hb : ((fromBase64Url tsPart).length != 4) = false := by simpa using hlen
        have hz' : (bigEndianBytesToU32 (fromBase64Url tsPart) == 0) = false := by simpa using hz
        have hf' : decide ((now : Int) + skew < bigEndianBytesToU32 (fromBase64Url tsPart)) = false :=
          decide_eq_false hf
        have hd : decide ((now : Int) - bigEndianBytesToU32 (fromBase64Url tsPart) > ttl + skew) = true :=
          decide_eq_true h
        simp only [verifyParts, hb, Bool.false_eq_true, if_false, hz', hf', hd, if_true]
  · exact verifyParts_ts_not4 hmac now noncePart tsPart sigPart secret ttl skew hlen

theorem verifyParts_accept (hmac : Hmac) (now : Nat)
    (noncePart tsPart sigPart secret : String) (ttl skew : Int)
    (hlen : (fromBase64Url tsPart).length = 4)
    (hz : bigEndianBytesToU32 (fromBase64Url tsPart) ≠ 0)
    (hf : ¬ ((now : Int) + skew < bigEndianBytesToU32 (fromBase64Url tsPart)))
    (he : ¬ ((now : Int) - bigEndianBytesToU32 (fromBase64Url tsPart) > ttl + skew))
    (hsig : hmac (fromBase64Url noncePart ++ fromBase64Url tsPart) (base64ToBytes secret.data) =
      fromBase64Url sigPart) :
    verifyParts hmac now noncePart tsPart sigPart secret ttl skew = true := by
  have hb : ((fromBase64Url tsPart).length != 4) = false := by simpa using hlen
  have hz' : (bigEndianBytesToU32 (fromBase64Url tsPart) == 0) = false := by simpa using hz
  have hf' : decide ((now : Int) + skew < bigEndianBytesToU32 (fromBase64Url tsPart)) = false :=
    decide_eq_false hf
  have he' : decide ((now : Int) - bigEndianBytesToU32 (fromBase64Url tsPart) > ttl + skew) = false :=
    decide_eq_false he
  simp only [verifyParts, hb, Bool.false_eq_true, if_false, hz', hf', he']
  exact (constTimeEqBytes_iff _ _).mpr hsig

/-- C1: the Verifier rejects a token whose string does not split into exactly
three dot segments, whose decoded timestamp is not exactly 4 bytes, whose
decoded issuedAt is 0, that comes from the future beyond the skew
(now + skew less than issuedAt), or that is expired beyond tolerance
(now - issuedAt greater than ttl + skew); at the exact boundary
now - issuedAt equal to ttl + skew it is not rejected by the expiry check
and is accepted when the recomputed HMAC signature equals the provided
signature segment. -/
theorem verifier_checks (hmac : Hmac) (now : Nat) (token secret : String) (ttl skew : Int) :
    ((jsSplit '.' token).length ≠ 3 →
      verifySignedTokenWithTTL hmac now token secret ttl skew = false) ∧
    (∀ noncePart tsPart sigPart, jsSplit '.' token = [noncePart, tsPart, sigPart] →
      ((fromBase64Url tsPart).length ≠ 4 →
        verifySignedTokenWithTTL hmac now token secret ttl skew = false) ∧
      (bigEndianBytesToU32 (fromBase64Url tsPart) = 0 →
        verifySignedTokenWithTTL hmac now token secret ttl skew = false) ∧
      ((now : Int) + skew < bigEndianBytesToU32 (fromBase64Url tsPart) →
        verifySignedTokenWithTTL hmac now token secret ttl skew = false) ∧
      ((now : Int) - bigEndianBytesToU32 (fromBase64Url tsPart) > ttl + skew →
        verifySignedTokenWithTTL hmac now token secret ttl skew = false) ∧
      ((fromBase64Url tsPart).length = 4 →
        bigEndianBytesToU32 (fromBase64Url tsPart) ≠ 0 →
        ¬ ((now : Int) + skew < bigEndianBytesToU32 (fromBase64Url tsPart)) →
        (now : Int) - bigEndianBytesToU32 (fromBase64Url tsPart) = ttl + skew →
        hmac (fromBase64Url noncePart ++ fromBase64Url tsPart) (base64ToBytes secret.data) =
          fromBase64Url sigPart →
        verifySignedTokenWithTTL hmac now token secret ttl skew = true)) := by
  constructor
  · exact verify_split_ne_three hmac now token secret ttl skew
  · intro noncePart tsPart sigPart hsplit
    have hred : verifySignedTokenWithTTL hmac now token secret ttl skew =
        verifyParts hmac now noncePart tsPart sigPart secret ttl skew := by
      unfold verifySignedTokenWithTTL
      rw [hsplit]
    refine ⟨?_, ?_, ?_, ?_, ?_⟩
    · intro h
      rw [hred]
      exact verifyParts_ts_not4 hmac now noncePart tsPart sigPart secret ttl skew h
    · intro h
      rw [hred]
      exact verifyParts_issued_zero hmac now noncePart tsPart sigPart secret ttl skew h
    · intro h
      rw [hred]
      exact verifyParts_future hmac now noncePart tsPart sigPart secret ttl skew h
    · intro h
      rw [hred]
      exact verifyParts_expired hmac now noncePart tsPart sigPart secret ttl skew h
    · intro hlen hz hf hboundary hsig
      rw [hred]
      exact verifyParts_accept hmac now noncePart tsPart sigPart secret ttl skew hlen hz hf
        (by omega) hsig

/-- C1 witness: the conjuncts of verifier_checks applied at concrete tokens:
a two-segment token is rejected, and a token sitting exactly at the expiry
boundary (now 107, issuedAt 100, ttl 5, skew 2) with a matching recomputed
signature is accepted. -/
theorem verifier_checks_witness :
    verifySignedTokenWithTTL (fun m _ => m) 107 "a.b" "s" 5 2 = false ∧
      verifySignedTokenWithTTL (fun m _ => m) 107 ".AAAAZA.AAAAZA" "s" 5 2 = true :=
  ⟨(verifier_checks (fun m _ => m) 107 "a.b" "s" 5 2).1 (by decide),
    ((verifier_checks (fun m _ => m) 107 ".AAAAZA.AAAAZA" "s" 5 2).2 "" "AAAAZA" "AAAAZA"
      (by decide)).2.2.2.2 (by decide) (by decide) (by decide) (by decide) (by decide)⟩

theorem validateCSRFToken_some_iff (a b : String) :
    validateCSRFToken (some a) (some b) = true ↔ (a ≠ "" ∧ a = b) := by
  unfold validateCSRFToken optTruthy
  by_cases ha : a = ""
  · subst ha
    simp
  · by_cases hb : b = ""
    · subst hb
      have ha' : (a != "") = true := by simpa using ha
      simp only [ha', Option.getD_some]
      constructor
      · intro h
        simp only [Bool.not_true, bne_self_eq_false, Bool.not_false, Bool.false_or, if_true] at h
        simp at h
      · rintro ⟨_, rfl⟩
        exact absurd rfl ha
    · have ha' : (a != "") = true := by simpa using ha
      have hb' : (b != "") = true := by simpa using hb
      simp only [ha', hb', Bool.not_true, Bool.or_self, Bool.false_eq_true, if_false,
        Option.getD_some]
      rw [constTimeEqChars_iff]
      constructor
      · intro h
        exact ⟨ha, String.ext h⟩
      · rintro ⟨_, rfl⟩
        rfl

theorem anyTokenMatches_iff (h : String) (l : List String) :
    anyTokenMatches h l = true ↔ (h ≠ "" ∧ h ∈ l) := by
  induction l with
  | nil => simp [anyTokenMatches]
  | cons t rest ih =>
      simp only [anyTokenMatches, Bool.or_eq_true, ih, validateCSRFToken_some_iff, List.mem_cons]
      constructor
      · rintro (⟨hne, rfl⟩ | ⟨hne, hmem⟩)
        · exact ⟨hne, Or.inl rfl⟩
        · exact ⟨hne, Or.inr hmem⟩
      · rintro ⟨hne, (rfl | hmem)⟩
        · exact Or.inl ⟨hne, rfl⟩
        · exact Or.inr ⟨hne, hmem⟩

theorem mem_parseMultipleTokens (t c : String) (h : t ∈ parseMultipleTokens (some c)) :
    t ≠ "" ∧ c ≠ "" := by
  unfold parseMultipleTokens at h
  by_cases hc : c = ""
  · subst hc
    simp at h
  · have hc' : (c == "") = false := by simpa using hc
    simp only [hc', Bool.false_eq_true, if_false] at h
    have := (List.mem_filter.mp h).2
    exact ⟨by simpa using this, hc⟩

theorem optTruthy_eq_true (x : Option String) :
    optTruthy x = true ↔ ∃ s, x = some s ∧ s ≠ "" := by
  rcases x with _ | s
  · simp [optTruthy]
  · simp [optTruthy]

/-- C2 (grace-period check): verifyTokenWithGracePeriod returns true exactly
when both the cookie value and the header token are present, the header
token string-equals one of the non-empty bar-separated tokens parsed from
the cookie, and the header token itself passes the Verifier. -/
theorem grace_period_check_iff (hmac : Hmac) (now : Nat) (cookieValue headerToken : Option String)
    (secret : String) (ttl skew : Int) :
    verifyTokenWithGracePeriod hmac now cookieValue headerToken secret ttl skew = true ↔
      ∃ c h, cookieValue = some c ∧ headerToken = some h ∧
        h ∈ parseMultipleTokens (some c) ∧
        verifySignedTokenWithTTL hmac now h secret ttl skew = true := by
  constructor
  · intro hv
    unfold verifyTokenWithGracePeriod at hv
    split at hv
    · exact absurd hv (by simp)
    · rename_i hcond1
      split at hv
      · exact absurd hv (by simp)
      · rename_i hcond2
        split at hv
        · exact absurd hv (by simp)
        · rename_i hcond3
          have h1 : optTruthy cookieValue = true ∧ optTruthy headerToken = true := by
            rcases Bool.or_eq_false_iff.mp (Bool.not_eq_true _ |>.mp hcond1) with ⟨ha, hb⟩
            exact ⟨by simpa using ha, by simpa using hb⟩
          rcases (optTruthy_eq_true _).mp h1.1 with ⟨c, rfl, hcne⟩
          rcases (optTruthy_eq_true _).mp h1.2 with ⟨h, rfl, hhne⟩
          have hmatch : anyTokenMatches ((some h).getD "") (parseMultipleTokens (some c)) = true := by
            rcases Bool.not_eq_true _ |>.mp hcond3 with hm
            simpa using hm
          simp only [Option.getD_some] at hmatch hv
          have hmem := ((anyTokenMatches_iff h _).mp hmatch).2
          exact ⟨c, h, rfl, rfl, hmem, hv⟩
  · rintro ⟨c, h, rfl, rfl, hmem, hver⟩
    rcases mem_parseMultipleTokens h c hmem with ⟨hhne, hcne⟩
    have b1 : (!optTruthy (some c) || !optTruthy (some h)) = false := by
      have : optTruthy (some c) = true := by simp [optTruthy, hcne]
      have h2 : optTruthy (some h) = true := by simp [optTruthy, hhne]
      simp [this, h2]
    have b2 : ((parseMultipleTokens (some c)).length == 0) = false := by
      have : parseMultipleTokens (some c) ≠ [] := List.ne_nil_of_mem hmem
      simpa using fun hz => this (List.eq_nil_of_length_eq_zero hz)
    have b3 : (!anyTokenMatches h (parseMultipleTokens (some c))) = false := by
      have := (anyTokenMatches_iff h (parseMultipleTokens (some c))).mpr ⟨hhne, hmem⟩
      simp [this]
    simp only [verifyTokenWithGracePeriod, b1, Bool.false_eq_true, if_false, b2, b3,
      Option.getD_some]
    exact hver

/-! The protection engine (csrfProtect, server.ts lines 424 to 706). -/

/-- resolved middleware configuration, the config object built in
createCsrfProtect (server.ts lines 390 to 407); methods is the source's
name for the resolved pageMethods.  Cookie attributes are not modelled:
the Response type records set values only. -/
structure Config where
  cookieName : String
  headerName : String
  methods : List String
  apiMethods : List String
  secret : String
  ttlSeconds : Int
  allowedSkewSeconds : Int
  allowedOrigins : List String
  tokenRotationGracePeriod : Int

/-- the request data csrfProtect reads: method, pathname and own origin of
request.nextUrl, the headers it consults (absent headers already defaulted
to the empty string, as server.ts lines 430 to 436 do), the csrf cookie
value under the configured cookie name and the csrf header token under the
configured header name (null when absent). -/
structure Request where
  method : String
  pathname : String
  nextUrlOrigin : String
  originHeader : String
  refererHeader : String
  secFetchSite : String
  accept : String
  secFetchDest : String
  secFetchMode : String
  nextUrlHeader : String
  cookieValue : Option String
  headerToken : Option String

/-- the response state csrfProtect mutates: headers set so far, in order,
and the csrf cookie value once set. -/
structure Response where
  headers : List (String × String)
  cookie : Option String

/-- response.headers.set. -/
def setHeader (name value : String) (r : Response) : Response :=
  { r with headers := r.headers ++ [(name, value)] }

/-- setCsrfTokenCookie (server.ts lines 299 to 317), value only. -/
def setCsrfTokenCookie (token : String) (r : Response) : Response :=
  { r with cookie := some token }

/-- origin header equals the request's own origin (server.ts line 437). -/
def sameOriginB (request : Request) : Bool :=
  request.originHeader == request.nextUrlOrigin

/-- referer starts with the request's own origin (server.ts line 438). -/
def refererOkB (request : Request) : Bool :=
  strStartsWith request.refererHeader request.nextUrlOrigin

/-- isCrossOrigin (server.ts line 454). -/
def isCrossOriginB (request : Request) : Bool :=
  !sameOriginB request && !refererOkB request

/-- candidateOrigin (server.ts lines 439 to 448); parseOrigin stands for
the platform URL parser applied to the referer, none on parse failure. -/
def candidateOriginOf (parseOrigin : String → Option String) (request : Request) : String :=
  if request.originHeader != "" then request.originHeader
  else if request.refererHeader != "" then (parseOrigin request.refererHeader).getD ""
  else ""

/-- isAllowedOrigin (server.ts line 453). -/
def isAllowedOriginB (config : Config) (parseOrigin : String → Option String)
    (request : Request) : Bool :=
  candidateOriginOf parseOrigin request != "" &&
    config.allowedOrigins.contains (candidateOriginOf parseOrigin request)

/-- the API/internal path test (server.ts line 451). -/
def isApiPath (pathname : String) : Bool :=
  strStartsWith pathname "/_next" || strStartsWith pathname "/api/"

/-- allowed Sec-Fetch-Site values (server.ts line 502). -/
def secFetchSiteOk (s : String) : Bool := s == "same-origin" || s == "same-site" || s == ""

/-- allowed Sec-Fetch-Mode values (server.ts line 506). -/
def secFetchModeOk (s : String) : Bool := s == "cors" || s == "navigate" || s == ""

/-- allowed Sec-Fetch-Dest values (server.ts line 510). -/
def secFetchDestOk (s : String) : Bool := s == "empty" || s == "document" || s == ""

/-- the document-navigation test of the issuance branch (server.ts 588). -/
def isDocNavigation (request : Request) : Bool :=
  (sameOriginB request || request.originHeader == "") &&
    strIncludes "text/html" request.accept && (request.secFetchDest == "document")

/-- the soft-navigation test of the issuance branch (server.ts 610). -/
def isSoftNavigation (request : Request) : Bool :=
  (sameOriginB request || request.originHeader == "") &&
    strIncludes "*/*" request.accept && (request.secFetchDest == "empty") &&
    (request.nextUrlHeader != "")

/-- getOrCreateSignedToken (server.ts lines 233 to 249). -/
def getOrCreateSignedToken (config : Config) (hmac : Hmac) (now : Nat) (freshNonce : List Nat)
    (request : Request) (response : Response) : String × Response :=
  if optTruthy request.cookieValue &&
      verifySignedTokenWithTTL hmac now (request.cookieValue.getD "") config.secret
        config.ttlSeconds config.allowedSkewSeconds then
    (request.cookieValue.getD "", response)
  else
    (generateSignedToken hmac now freshNonce config.secret,
      setCsrfTokenCookie (generateSignedToken hmac now freshNonce config.secret) response)

/-- getOrCreateCsrfToken (server.ts lines 325 to 331). -/
def getOrCreateCsrfToken (freshNonce : List Nat) (request : Request) : String :=
  if optTruthy request.cookieValue then request.cookieValue.getD ""
  else generateCSRFToken freshNonce

/-- the CORS headers of the OPTIONS preflight branch (server.ts 470-474). -/
def preflightCorsHeaders (config : Config) (candidateOrigin : String) (r : Response) : Response :=
  setHeader "Access-Control-Max-Age" "86400"
    (setHeader "Access-Control-Allow-Credentials" "true"
      (setHeader "Access-Control-Allow-Headers" (config.headerName ++ ", Content-Type, Authorization")
        (setHeader "Access-Control-Allow-Methods" "GET, POST, PUT, PATCH, DELETE, OPTIONS"
          (setHeader "Access-Control-Allow-Origin" candidateOrigin r))))

/-- the CORS headers set for allowed origins on non-OPTIONS API requests
(server.ts 492-496). -/
def allowedOriginCorsHeaders (candidateOrigin : String) (r : Response) : Response :=
  setHeader "Vary" "Origin"
    (setHeader "Access-Control-Allow-Credentials" "true"
      (setHeader "Access-Control-Allow-Origin" candidateOrigin r))

/-- wraps a token-and-response pair as a successful engine result. -/
def okPair (tr : String × Response) : Except String String × Response :=
  (Except.ok tr.1, tr.2)

/-- the token validation of the API branch, for methods in apiMethods
(server.ts lines 530 to 582); for other methods the existing cookie token
or the empty string. -/
def apiValidate (config : Config) (hmac : Hmac) (now : Nat) (request : Request)
    (response : Response) : Except String String × Response :=
  if config.apiMethods.contains request.method then
    if !optTruthy request.headerToken || !optTruthy request.cookieValue then
      (Except.error "CSRF token is required", response)
    else if config.secret != "" then
      if verifyTokenWithGracePeriod hmac now request.cookieValue request.headerToken config.secret
          config.ttlSeconds config.allowedSkewSeconds then
        (Except.ok ((parseMultipleTokens request.cookieValue).getD 0 ""), response)
      else (Except.error "Invalid CSRF token", response)
    else
      if validateCSRFToken request.headerToken request.cookieValue then
        (Except.ok ((parseMultipleTokens request.cookieValue).getD 0 ""), response)
      else (Except.error "Invalid CSRF token", response)
  else
    (Except.ok (request.cookieValue.getD ""), response)

/-- continuation of csrfProtect on an API/internal path after the
cross-origin gate: Fetch-Metadata checks, HTML-accept check, then token
validation (server.ts lines 498 to 582). -/
def apiAfterOrigin (config : Config) (hmac : Hmac) (now : Nat) (request : Request)
    (response : Response) (isAllowedOrigin : Bool) : Except String String × Response :=
  if !isAllowedOrigin && !secFetchSiteOk request.secFetchSite then
    (Except.error "Invalid Sec-Fetch-Site header", response)
  else if !isAllowedOrigin && !secFetchModeOk request.secFetchMode then
    (Except.error "Invalid Sec-Fetch-Mode header", response)
  else if !isAllowedOrigin && !secFetchDestOk request.secFetchDest then
    (Except.error "Invalid Sec-Fetch-Dest header", response)
  else if !isAllowedOrigin && strIncludes "text/html" (jsToLower request.accept) then
    (Except.error "Invalid accept header for API", response)
  else
    apiValidate config hmac now request response

/-- the issuance branch for safe methods on non-API paths (server.ts lines
585 to 633). -/
def safeMethodIssue (config : Config) (hmac : Hmac) (now : Nat) (freshNonce : List Nat)
    (request : Request) (response : Response) : Except String String × Response :=
  if isDocNavigation request then
    if config.secret != "" then
      okPair (getOrCreateSignedToken config hmac now freshNonce request response)
    else
      (Except.ok (getOrCreateCsrfToken freshNonce request),
        setCsrfTokenCookie (getOrCreateCsrfToken freshNonce request) response)
  else if isSoftNavigation request then
    if config.secret != "" then
      okPair (getOrCreateSignedToken config hmac now freshNonce request response)
    else
      (Except.ok (getOrCreateCsrfToken freshNonce request),
        setCsrfTokenCookie (getOrCreateCsrfToken freshNonce request) response)
  else
    (Except.ok "", response)

/-- the validation of modifying methods on non-API routes (server.ts lines
640 to 678): some rejection message, or none when validation passes or the
method needs none. -/
def pageValidate (config : Config) (hmac : Hmac) (now : Nat) (request : Request) :
    Option String :=
  if config.methods.contains request.method then
    if !optTruthy request.headerToken || !optTruthy request.cookieValue then
      some "CSRF token is required"
    else if config.secret != "" then
      if verifyTokenWithGracePeriod hmac now request.cookieValue request.headerToken config.secret
          config.ttlSeconds config.allowedSkewSeconds then none
      else some "Invalid CSRF token"
    else
      if validateCSRFToken request.headerToken request.cookieValue then none
      else some "Invalid CSRF token"
  else none

/-- the tail of csrfProtect for non-API routes: return the existing cookie
token, else create one (server.ts lines 680 to 705). -/
def pageTail (config : Config) (hmac : Hmac) (now : Nat) (freshNonce : List Nat)
    (request : Request) (response : Response) : Except String String × Response :=
  if optTruthy request.cookieValue then (Except.ok (request.cookieValue.getD ""), response)
  else if config.secret != "" then
    okPair (getOrCreateSignedToken config hmac now freshNonce request response)
  else
    (Except.ok (getOrCreateCsrfToken freshNonce request),
      setCsrfTokenCookie (getOrCreateCsrfToken freshNonce request) response)

/-- csrfProtect (server.ts lines 424 to 706): a thrown CsrfError is the
error case, carrying its message; otherwise the returned token string; the
second component is the response state when control leaves the function. -/
def csrfProtect (config : Config) (hmac : Hmac) (parseOrigin : String → Option String)
    (now : Nat) (freshNonce : List Nat) (request : Request) (response : Response) :
    Except String String × Response :=
  if isApiPath request.pathname then
    if request.method == "OPTIONS" then
      if isCrossOriginB request && !isAllowedOriginB config parseOrigin request then
        (Except.error "Origin not allowed for CORS preflight", response)
      else if isAllowedOriginB config parseOrigin request then
        (Except.ok "", preflightCorsHeaders config (candidateOriginOf parseOrigin request) response)
      else
        (Except.ok "", response)
    else if isCrossOriginB request && !isAllowedOriginB config parseOrigin request then
      (Except.error "Cross-origin request blocked", response)
    else if isAllowedOriginB config parseOrigin request then
      apiAfterOrigin config hmac now request
        (allowedOriginCorsHeaders (candidateOriginOf parseOrigin request) response) true
    else
      apiAfterOrigin config hmac now request response false
  else if request.method == "GET" || request.method == "HEAD" || request.method == "OPTIONS" then
    safeMethodIssue config hmac now freshNonce request response
  else
    match pageValidate config hmac now request with
    | some e => (Except.error e, response)
    | none => pageTail config hmac now freshNonce request response

theorem apiAfterOrigin_allowed (config : Config) (hmac : Hmac) (now : Nat)
    (request : Request) (response : Response) :
    apiAfterOrigin config hmac now request response true =
      apiValidate config hmac now request response := by
  simp [apiAfterOrigin]

theorem apiAfterOrigin_pass (config : Config) (hmac : Hmac) (now : Nat)
    (request : Request) (response : Response) (b : Bool)
    (hsite : secFetchSiteOk request.secFetchSite = true)
    (hmode : secFetchModeOk request.secFetchMode = true)
    (hdest : secFetchDestOk request.secFetchDest = true)
    (haccept : strIncludes "text/html" (jsToLower request.accept) = false) :
    apiAfterOrigin config hmac now request response b =
      apiValidate config hmac now request response := by
  simp [apiAfterOrigin, hsite, hmode, hdest, haccept]

theorem csrfProtect_api_nonoptions (config : Config) (hmac : Hmac)
    (parseOrigin : String → Option String) (now : Nat) (freshNonce : List Nat)
    (request : Request) (response : Response)
    (hapi : isApiPath request.pathname = true)
    (hopt : (request.method == "OPTIONS") = false)
    (hgate : (isCrossOriginB request && !isAllowedOriginB config parseOrigin request) = false) :
    csrfProtect config hmac parseOrigin now freshNonce request response =
      if isAllowedOriginB config parseOrigin request then
        apiAfterOrigin config hmac now request
          (allowedOriginCorsHeaders (candidateOriginOf parseOrigin request) response) true
      else apiAfterOrigin config hmac now request response false := by
  unfold csrfProtect
  simp only [hapi, if_true, hopt, Bool.false_eq_true, if_false, hgate]

/-- C4: on an OPTIONS request to an API/internal path, a cross-origin
request whose candidate origin is not allow-listed is rejected with the
preflight origin error; an allow-listed candidate receives the five CORS
preflight headers; and every non-rejecting case returns the empty token
with the cookie unchanged and without any token check: the outcome does
not depend on the request's cookie value or header token. -/
theorem options_preflight (config : Config) (hmac : Hmac)
    (parseOrigin : String → Option String) (now : Nat) (freshNonce : List Nat)
    (request : Request) (response : Response)
    (hapi : isApiPath request.pathname = true)
    (hopt : request.method = "OPTIONS") :
    ((isCrossOriginB request && !isAllowedOriginB config parseOrigin request) = true →
      csrfProtect config hmac parseOrigin now freshNonce request response =
        (Except.error "Origin not allowed for CORS preflight", response)) ∧
    (isAllowedOriginB config parseOrigin request = true →
      csrfProtect config hmac parseOrigin now freshNonce request response =
        (Except.ok "", preflightCorsHeaders config (candidateOriginOf parseOrigin request) response) ∧
      ("Access-Control-Allow-Origin", candidateOriginOf parseOrigin request) ∈
        (preflightCorsHeaders config (candidateOriginOf parseOrigin request) response).headers ∧
      ("Access-Control-Allow-Methods", "GET, POST, PUT, PATCH, DELETE, OPTIONS") ∈
        (preflightCorsHeaders config (candidateOriginOf parseOrigin request) response).headers ∧
      ("Access-Control-Allow-Headers", config.headerName ++ ", Content-Type, Authorization") ∈
        (preflightCorsHeaders config (candidateOriginOf parseOrigin request) response).headers ∧
      ("Access-Control-Allow-Credentials", "true") ∈
        (preflightCorsHeaders config (candidateOriginOf parseOrigin request) response).headers ∧
      ("Access-Control-Max-Age", "86400") ∈
        (preflightCorsHeaders config (candidateOriginOf parseOrigin request) response).headers) ∧
    ((isCrossOriginB request && !isAllowedOriginB config parseOrigin request) = false →
      (csrfProtect config hmac parseOrigin now freshNonce request response).1 = Except.ok "" ∧
      (csrfProtect config hmac parseOrigin now freshNonce request response).2.cookie =
        response.cookie ∧
      (∀ cv ht, csrfProtect config hmac parseOrigin now freshNonce
          { request with cookieValue := cv, headerToken := ht } response =
        csrfProtect config hmac parseOrigin now freshNonce request response)) := by
  have hopt' : (request.method == "OPTIONS") = true := by simpa using hopt
  refine ⟨?_, ?_, ?_⟩
  · intro hgate
    unfold csrfProtect
    simp only [hapi, if_true, hopt', hgate]
  · intro hallowed
    have hgate : (isCrossOriginB request && !isAllowedOriginB config parseOrigin request) = false := by
      simp [hallowed]
    constructor
    · unfold csrfProtect
      simp only [hapi, if_true, hopt', hallowed, Bool.not_true, Bool.and_false,
        Bool.false_eq_true, if_false]
    · simp [preflightCorsHeaders, setHeader]
  · intro hgate
    have hmain : csrfProtect config hmac parseOrigin now freshNonce request response =
        if isAllowedOriginB config parseOrigin request then
          (Except.ok "", preflightCorsHeaders config (candidateOriginOf parseOrigin request) response)
        else (Except.ok "", response) := by
      unfold csrfProtect
      simp only [hapi, if_true, hopt', hgate, Bool.false_eq_true, if_false]
    refine ⟨?_, ?_, ?_⟩
    · rw [hmain]
      by_cases h : isAllowedOriginB config parseOrigin request = true
      · simp [h]
      · simp [Bool.not_eq_true _ |>.mp h]
    · rw [hmain]
      by_cases h : isAllowedOriginB config parseOrigin request = true
      · simp [h, preflightCorsHeaders, setHeader]
      · simp [Bool.not_eq_true _ |>.mp h]
    · intro cv ht
      have hsame : ∀ cv ht,
          isCrossOriginB { request with cookieValue := cv, headerToken := ht } =
            isCrossOriginB request ∧
          isAllowedOriginB config parseOrigin { request with cookieValue := cv, headerToken := ht } =
            isAllowedOriginB config parseOrigin request ∧
          candidateOriginOf parseOrigin { request with cookieValue := cv, headerToken := ht } =
            candidateOriginOf parseOrigin request := by
        intro cv ht
        refine ⟨rfl, rfl, rfl⟩
      have h2 : csrfProtect config hmac parseOrigin now freshNonce
          { request with cookieValue := cv, headerToken := ht } response =
          if isAllowedOriginB config parseOrigin request then
            (Except.ok "", preflightCorsHeaders config (candidateOriginOf parseOrigin request) response)
          else (Except.ok "", response) := by
        unfold csrfProtect
        have hapi2 : isApiPath ({ request with cookieValue := cv, headerToken := ht } : Request).pathname = true := hapi
        have hopt2 : (({ request with cookieValue := cv, headerToken := ht } : Request).method == "OPTIONS") = true := hopt'
        have hgate2 : (isCrossOriginB { request with cookieValue := cv, headerToken := ht } &&
            !isAllowedOriginB config parseOrigin { request with cookieValue := cv, headerToken := ht }) = false := hgate
        simp only [hapi2, if_true, hopt2, hgate2, Bool.false_eq_true, if_false]
        rfl
      rw [h2, hmain]

/-- concrete configuration used by the C4 witness. -/
def c4Config : Config :=
  { cookieName := "csrf-token", headerName := "x-csrf-token",
    methods := ["POST", "PUT", "PATCH", "DELETE"],
    apiMethods := ["POST", "PUT", "PATCH", "DELETE"],
    secret := "c2VjcmV0LXNlY3JldC1zZWNyZXQtc2VjcmV0LTEyMzQ1Ng",
    ttlSeconds := 900, allowedSkewSeconds := 60,
    allowedOrigins := ["https://app.example"], tokenRotationGracePeriod := 30 }

/-- concrete allow-listed cross-origin OPTIONS request for the C4 witness. -/
def c4Request : Request :=
  { method := "OPTIONS", pathname := "/api/otp/send",
    nextUrlOrigin := "https://site.example",
    originHeader := "https://app.example", refererHeader := "",
    secFetchSite := "cross-site", accept := "", secFetchDest := "",
    secFetchMode := "cors", nextUrlHeader := "", cookieValue := none, headerToken := none }

/-- C4 witness: the preflight branch evaluated on a concrete allow-listed
cross-origin OPTIONS request. -/
theorem options_preflight_witness :
    isApiPath c4Request.pathname = true ∧ c4Request.method = "OPTIONS" ∧
    csrfProtect c4Config (fun _ _ => []) (fun _ => none) 0 [] c4Request ⟨[], none⟩ =
      (Except.ok "",
        preflightCorsHeaders c4Config (candidateOriginOf (fun _ => none) c4Request) ⟨[], none⟩) :=
  ⟨rfl, rfl,
    ((options_preflight c4Config (fun _ _ => []) (fun _ => none) 0 [] c4Request ⟨[], none⟩
      rfl rfl).2.1 rfl).1⟩

theorem missing_tokens_cond (request : Request)
    (hmiss : request.cookieValue = none ∨ request.headerToken = none) :
    (!optTruthy request.headerToken || !optTruthy request.cookieValue) = true := by
  rcases hmiss with h | h <;> simp [h, optTruthy]

theorem allowedOriginCorsHeaders_cookie (candidateOrigin : String) (r : Response) :
    (allowedOriginCorsHeaders candidateOrigin r).cookie = r.cookie := by
  simp [allowedOriginCorsHeaders, setHeader]

/-- C5: whenever a request reaches a token-validation branch (an API path
with a method in the configured apiMethods after surviving the origin and
header checks, or a non-API path with a non-safe method in the configured
page methods) and the csrf cookie or the csrf header token is absent, the
engine rejects with the message CSRF token is required and writes no
cookie to the response. -/
theorem missing_token_rejected (config : Config) (hmac : Hmac)
    (parseOrigin : String → Option String) (now : Nat) (freshNonce : List Nat)
    (request : Request) (response : Response)
    (hmiss : request.cookieValue = none ∨ request.headerToken = none) :
    (isApiPath request.pathname = true →
     (request.method == "OPTIONS") = false →
     config.apiMethods.contains request.method = true →
     (isCrossOriginB request && !isAllowedOriginB config parseOrigin request) = false →
     (isAllowedOriginB config parseOrigin request = true ∨
       (secFetchSiteOk request.secFetchSite = true ∧ secFetchModeOk request.secFetchMode = true ∧
        secFetchDestOk request.secFetchDest = true ∧
        strIncludes "text/html" (jsToLower request.accept) = false)) →
     (csrfProtect config hmac parseOrigin now freshNonce request response).1 =
        Except.error "CSRF token is required" ∧
     (csrfProtect config hmac parseOrigin now freshNonce request response).2.cookie =
        response.cookie) ∧
    (isApiPath request.pathname = false →
     (request.method == "GET") = false →
     (request.method == "HEAD") = false →
     (request.method == "OPTIONS") = false →
     config.methods.contains request.method = true →
     csrfProtect config hmac parseOrigin now freshNonce request response =
       (Except.error "CSRF token is required", response)) := by
  have hcond := missing_tokens_cond request hmiss
  constructor
  · intro hapi hopt hmeth hgate hpass
    have hmem : request.method ∈ config.apiMethods := by simpa using hmeth
    have hvalid : ∀ r : Response, apiValidate config hmac now request r =
        (Except.error "CSRF token is required", r) := by
      intro r
      simp [apiValidate, hmem, hcond]
    have hmain : csrfProtect config hmac parseOrigin now freshNonce request response =
        if isAllowedOriginB config parseOrigin request then
          (Except.error "CSRF token is required",
            allowedOriginCorsHeaders (candidateOriginOf parseOrigin request) response)
        else (Except.error "CSRF token is required", response) := by
      rw [csrfProtect_api_nonoptions config hmac parseOrigin now freshNonce request response
        hapi hopt hgate]
      by_cases hallow : isAllowedOriginB config parseOrigin request = true
      · rw [hallow]
        simp only [if_true, apiAfterOrigin_allowed, hvalid]
      · have hallow' := Bool.not_eq_true _ |>.mp hallow
        rcases hpass with h | ⟨hsite, hmode, hdest, haccept⟩
        · exact absurd h hallow
        · rw [hallow']
          simp only [Bool.false_eq_true, if_false]
          rw [apiAfterOrigin_pass config hmac now request response false hsite hmode hdest haccept,
            hvalid]
    rw [hmain]
    by_cases hallow : isAllowedOriginB config parseOrigin request = true
    · rw [hallow]
      simp only [if_true]
      exact ⟨trivial, allowedOriginCorsHeaders_cookie _ _⟩
    · rw [Bool.not_eq_true _ |>.mp hallow]
      simp only [Bool.false_eq_true, if_false]
      exact ⟨trivial, trivial⟩
  · intro hapi hget hhead hopt hmeth
    have hmem : request.method ∈ config.methods := by simpa using hmeth
    have hpv : pageValidate config hmac now request = some "CSRF token is required" := by
      simp [pageValidate, hmem, hcond]
    unfold csrfProtect
    simp only [hapi, Bool.false_eq_true, if_false, hget, hhead, hopt, Bool.or_self, hpv]

/-- concrete configuration used by the C5 witness. -/
def c5Config : Config :=
  { cookieName := "csrf-token", headerName := "x-csrf-token",
    methods := ["POST", "PUT", "PATCH", "DELETE"],
    apiMethods := ["POST", "PUT", "PATCH", "DELETE"],
    secret := "c2VjcmV0LXNlY3JldC1zZWNyZXQtc2VjcmV0LTEyMzQ1Ng",
    ttlSeconds := 900, allowedSkewSeconds := 60,
    allowedOrigins := [], tokenRotationGracePeriod := 30 }

/-- concrete same-origin API POST request with a cookie but no header token
for the C5 witness. -/
def c5Request : Request :=
  { method := "POST", pathname := "/api/otp/send",
    nextUrlOrigin := "https://site.example",
    originHeader := "https://site.example", refererHeader := "",
    secFetchSite := "same-origin", accept := "application/json", secFetchDest := "empty",
    secFetchMode := "cors", nextUrlHeader := "",
    cookieValue := some "tok.AAAAZA.sig", headerToken := none }

/-- C5 witness: a same-origin API POST with the header token absent is
rejected with CSRF token is required and no cookie is written. -/
theorem missing_token_rejected_witness :
    (csrfProtect c5Config (fun _ _ => []) (fun _ => none) 0 [] c5Request ⟨[], none⟩).1 =
        Except.error "CSRF token is required" ∧
    (csrfProtect c5Config (fun _ _ => []) (fun _ => none) 0 [] c5Request ⟨[], none⟩).2.cookie =
        (⟨[], none⟩ : Response).cookie :=
  (missing_token_rejected c5Config (fun _ _ => []) (fun _ => none) 0 [] c5Request ⟨[], none⟩
    (Or.inr rfl)).1 rfl rfl rfl (by decide) (Or.inr ⟨rfl, rfl, rfl, by decide⟩)

/-- C2: the grace-period-aware check returns true exactly when both the
cookie value and the header token are present, the header token
string-equals at least one of the bar-separated non-empty tokens parsed
from the cookie, and the header token itself passes the Verifier's
structural, freshness and signature checks; and a state-changing API
request that passes this check under a configured secret is answered with
the first token parsed from the cookie value. -/
theorem grace_period_validation (config : Config) (hmac : Hmac)
    (parseOrigin : String → Option String) (now : Nat) (freshNonce : List Nat)
    (request : Request) (response : Response) :
    (verifyTokenWithGracePeriod hmac now request.cookieValue request.headerToken config.secret
        config.ttlSeconds config.allowedSkewSeconds = true ↔
      ∃ c h, request.cookieValue = some c ∧ request.headerToken = some h ∧
        h ∈ parseMultipleTokens (some c) ∧
        verifySignedTokenWithTTL hmac now h config.secret config.ttlSeconds
          config.allowedSkewSeconds = true) ∧
    (isApiPath request.pathname = true →
     (request.method == "OPTIONS") = false →
     config.apiMethods.contains request.method = true →
     (isCrossOriginB request && !isAllowedOriginB config parseOrigin request) = false →
     (isAllowedOriginB config parseOrigin request = true ∨
       (secFetchSiteOk request.secFetchSite = true ∧ secFetchModeOk request.secFetchMode = true ∧
        secFetchDestOk request.secFetchDest = true ∧
        strIncludes "text/html" (jsToLower request.accept) = false)) →
     (config.secret != "") = true →
     verifyTokenWithGracePeriod hmac now request.cookieValue request.headerToken config.secret
        config.ttlSeconds config.allowedSkewSeconds = true →
     (csrfProtect config hmac parseOrigin now freshNonce request response).1 =
       Except.ok ((parseMultipleTokens request.cookieValue).getD 0 "")) := by
  constructor
  · exact grace_period_check_iff hmac now request.cookieValue request.headerToken config.secret
      config.ttlSeconds config.allowedSkewSeconds
  · intro hapi hopt hmeth hgate hpass hsec hv
    have hmem : request.method ∈ config.apiMethods := by simpa using hmeth
    rcases (grace_period_check_iff hmac now request.cookieValue request.headerToken config.secret
      config.ttlSeconds config.allowedSkewSeconds).mp hv with ⟨c, h, hc, hh, hparse, _⟩
    rcases mem_parseMultipleTokens h c hparse with ⟨hhne, hcne⟩
    have hcondF : (!optTruthy request.headerToken || !optTruthy request.cookieValue) = false := by
      rw [hc, hh]
      simp [optTruthy, hhne, hcne]
    have hvalid : ∀ r : Response, apiValidate config hmac now request r =
        (Except.ok ((parseMultipleTokens request.cookieValue).getD 0 ""), r) := by
      intro r
      simp [apiValidate, hmem, hcondF, hsec, hv]
    rw [csrfProtect_api_nonoptions config hmac parseOrigin now freshNonce request response
      hapi hopt hgate]
    by_cases hallow : isAllowedOriginB config parseOrigin request = true
    · rw [hallow]
      simp only [if_true, apiAfterOrigin_allowed, hvalid]
    · have hallow' := Bool.not_eq_true _ |>.mp hallow
      rcases hpass with hp | ⟨hsite, hmode, hdest, haccept⟩
      · exact absurd hp hallow
      · rw [hallow']
        simp only [Bool.false_eq_true, if_false]
        rw [apiAfterOrigin_pass config hmac now request response false hsite hmode hdest haccept,
          hvalid]

/-- concrete configuration used by the C2 witness; the ttl and skew are 5
and 2 seconds so that the boundary token of the C1 witness validates. -/
def c2Config : Config :=
  { cookieName := "csrf-token", headerName := "x-csrf-token",
    methods := ["POST", "PUT", "PATCH", "DELETE"],
    apiMethods := ["POST", "PUT", "PATCH", "DELETE"],
    secret := "c2VjcmV0LXNlY3JldC1zZWNyZXQtc2VjcmV0LTEyMzQ1Ng",
    ttlSeconds := 5, allowedSkewSeconds := 2,
    allowedOrigins := [], tokenRotationGracePeriod := 30 }

/-- concrete same-origin API POST carrying matching cookie and header
tokens for the C2 witness. -/
def c2Request : Request :=
  { method := "POST", pathname := "/api/otp/send",
    nextUrlOrigin := "https://site.example",
    originHeader := "https://site.example", refererHeader := "",
    secFetchSite := "same-origin", accept := "application/json", secFetchDest := "empty",
    secFetchMode := "cors", nextUrlHeader := "",
    cookieValue := some ".AAAAZA.AAAAZA|stale.AAAAAQ.sig",
    headerToken := some ".AAAAZA.AAAAZA" }

/-- C2 witness: the grace-period check holds on the concrete request and
the engine answers with the first token parsed from its cookie. -/
theorem grace_period_validation_witness :
    verifyTokenWithGracePeriod (fun m _ => m) 107 c2Request.cookieValue c2Request.headerToken
        c2Config.secret c2Config.ttlSeconds c2Config.allowedSkewSeconds = true ∧
    (csrfProtect c2Config (fun m _ => m) (fun _ => none) 107 [] c2Request ⟨[], none⟩).1 =
      Except.ok ".AAAAZA.AAAAZA" :=
  ⟨by decide,
    (grace_period_validation c2Config (fun m _ => m) (fun _ => none) 107 [] c2Request
      ⟨[], none⟩).2 rfl rfl (by decide) (by decide)
      (Or.inr ⟨rfl, rfl, rfl, by decide⟩) (by decide) (by decide)⟩

/-- C7: a GET, HEAD or OPTIONS request to a non-API path obtains a token
exactly when it is a document navigation or a soft-navigation fetch: in
every other case the engine returns the empty token and the response is
untouched; when one of the two navigation shapes holds (and a secret is
configured) the engine returns getOrCreateSignedToken's result, which
reuses a verifying existing cookie token without writing a cookie, and
otherwise mints a fresh signed token and writes it to the cookie. -/
theorem safe_method_issuance (config : Config) (hmac : Hmac)
    (parseOrigin : String → Option String) (now : Nat) (freshNonce : List Nat)
    (request : Request) (response : Response)
    (hapi : isApiPath request.pathname = false)
    (hsafe : (request.method == "GET" || request.method == "HEAD" ||
      request.method == "OPTIONS") = true) :
    ((isDocNavigation request || isSoftNavigation request) = false →
      csrfProtect config hmac parseOrigin now freshNonce request response =
        (Except.ok "", response)) ∧
    ((isDocNavigation request || isSoftNavigation request) = true →
     (config.secret != "") = true →
      csrfProtect config hmac parseOrigin now freshNonce request response =
        okPair (getOrCreateSignedToken config hmac now freshNonce request response) ∧
      ((optTruthy request.cookieValue &&
          verifySignedTokenWithTTL hmac now (request.cookieValue.getD "") config.secret
            config.ttlSeconds config.allowedSkewSeconds) = true →
        getOrCreateSignedToken config hmac now freshNonce request response =
          (request.cookieValue.getD "", response)) ∧
      ((optTruthy request.cookieValue &&
          verifySignedTokenWithTTL hmac now (request.cookieValue.getD "") config.secret
            config.ttlSeconds config.allowedSkewSeconds) = false →
        getOrCreateSignedToken config hmac now freshNonce request response =
          (generateSignedToken hmac now freshNonce config.secret,
            setCsrfTokenCookie (generateSignedToken hmac now freshNonce config.secret) response))) := by
  have hmain : csrfProtect config hmac parseOrigin now freshNonce request response =
      safeMethodIssue config hmac now freshNonce request response := by
    unfold csrfProtect
    simp only [hapi, Bool.false_eq_true, if_false, hsafe, if_true]
  constructor
  · intro hno
    rcases Bool.or_eq_false_iff.mp hno with ⟨hdoc, hsoft⟩
    rw [hmain]
    simp [safeMethodIssue, hdoc, hsoft]
  · intro hyes hsec
    refine ⟨?_, ?_, ?_⟩
    · rw [hmain]
      rcases Bool.or_eq_true_iff.mp hyes with hdoc | hsoft
      · simp only [safeMethodIssue, hdoc, if_true, hsec]
      · by_cases hdoc : isDocNavigation request = true
        · simp only [safeMethodIssue, hdoc, if_true, hsec]
        · simp only [safeMethodIssue, Bool.not_eq_true _ |>.mp hdoc, Bool.false_eq_true,
            if_false, hsoft, if_true, hsec]
    · intro hreuse
      simp only [getOrCreateSignedToken, hreuse, if_true]
    · intro hmint
      simp only [getOrCreateSignedToken, hmint, Bool.false_eq_true, if_false]

/-- concrete configuration used by the C7 witness. -/
def c7Config : Config :=
  { cookieName := "csrf-token", headerName := "x-csrf-token",
    methods := ["POST", "PUT", "PATCH", "DELETE"],
    apiMethods := ["POST", "PUT", "PATCH", "DELETE"],
    secret := "c2VjcmV0LXNlY3JldC1zZWNyZXQtc2VjcmV0LTEyMzQ1Ng",
    ttlSeconds := 900, allowedSkewSeconds := 60,
    allowedOrigins := [], tokenRotationGracePeriod := 30 }

/-- concrete document-navigation GET request without a cookie for the C7
witness. -/
def c7Request : Request :=
  { method := "GET", pathname := "/otp/send",
    nextUrlOrigin := "https://site.example",
    originHeader := "", refererHeader := "",
    secFetchSite := "same-origin", accept := "text/html;q=0.9", secFetchDest := "document",
    secFetchMode := "navigate", nextUrlHeader := "",
    cookieValue := none, headerToken := none }

/-- C7 witness: a document navigation without an existing cookie makes the
engine mint a fresh signed token and set it on the cookie. -/
theorem safe_method_issuance_witness :
    (isDocNavigation c7Request || isSoftNavigation c7Request) = true ∧
    csrfProtect c7Config (fun m _ => m) (fun _ => none) 100 [1, 2, 3] c7Request ⟨[], none⟩ =
      okPair (getOrCreateSignedToken c7Config (fun m _ => m) 100 [1, 2, 3] c7Request ⟨[], none⟩) ∧
    getOrCreateSignedToken c7Config (fun m _ => m) 100 [1, 2, 3] c7Request ⟨[], none⟩ =
      (generateSignedToken (fun m _ => m) 100 [1, 2, 3] c7Config.secret,
        setCsrfTokenCookie (generateSignedToken (fun m _ => m) 100 [1, 2, 3] c7Config.secret)
          ⟨[], none⟩) :=
  ⟨by decide,
    ((safe_method_issuance c7Config (fun m _ => m) (fun _ => none) 100 [1, 2, 3] c7Request
      ⟨[], none⟩ rfl (by decide)).2 (by decide) (by decide)).1,
    ((safe_method_issuance c7Config (fun m _ => m) (fun _ => none) 100 [1, 2, 3] c7Request
      ⟨[], none⟩ rfl (by decide)).2 (by decide) (by decide)).2.2 (by decide)⟩

/-! createCsrfProtect (server.ts lines 338 to 424): eager validation. -/

/-- the allowedOrigins option: absent, a comma-separated string, or a
list (server.ts lines 366 to 372). -/
inductive OriginsInput where
  | undef : OriginsInput
  | str : String → OriginsInput
  | arr : List String → OriginsInput

/-- CsrfCookieOptions (server.ts lines 17 to 23). -/
structure CsrfCookieOptions where
  httpOnly : Option Bool := none
  secure : Option Bool := none
  sameSite : Option String := none
  path : Option String := none
  maxAge : Option Int := none

/-- CsrfProtectOptions (server.ts lines 28 to 40); optional fields are
Option values, none for absent. -/
structure CsrfProtectOptions where
  secret : String
  allowedOrigins : OriginsInput := OriginsInput.undef
  cookie : Option CsrfCookieOptions := none
  cookieName : Option String := none
  headerName : Option String := none
  pageMethods : Option (List String) := none
  apiMethods : Option (List String) := none
  ttlSeconds : Option Int := none
  allowedSkewSeconds : Option Int := none
  tokenRotationGracePeriod : Option Int := none

/-- ASCII whitespace as trimmed by String.prototype.trim (restricted to
space, tab, line feed and carriage return). -/
def isJsSpace (c : Char) : Bool := c == ' ' || c == '\t' || c == '\n' || c == '\r'

/-- models String.prototype.trim. -/
def jsTrim (s : String) : String :=
  String.mk (((s.data.dropWhile isJsSpace).reverse.dropWhile isJsSpace).reverse)

/-- parseAllowedOrigins (server.ts lines 822 to 827). -/
def parseAllowedOrigins (originsString : String) : List String :=
  ((jsSplit ',' originsString).map jsTrim).filter (fun o => o != "")

/-- removal of at most two trailing '=' characters. -/
def dropAtMost2Eq (cs : List Char) : List Char :=
  let cs1 := if cs.getLast? == some '=' then cs.dropLast else cs
  if cs1.getLast? == some '=' then cs1.dropLast else cs1

/-- acceptance of the atob branch of base64ToBytes, per the
forgiving-base64 algorithm: remove ASCII whitespace, strip up to two
trailing '=' when the length is a multiple of four, fail when the
remaining length is 1 mod 4 or any character is outside the alphabet.
This is the only case in which the try/catch of createCsrfProtect
(server.ts lines 356 to 364) can fire: the Buffer branch of base64ToBytes
is lenient and never throws. -/
def atobAccepts (s : String) : Bool :=
  let cs := s.data.filter (fun c => !isJsSpace c)
  let cs2 := if cs.length % 4 == 0 then dropAtMost2Eq cs else cs
  (cs2.length % 4 != 1) && cs2.all (fun c => (b64CharVal c).isSome)

/-- an allowed-origin entry rejected by createCsrfProtect: missing
http or https scheme, or a trailing slash (server.ts lines 374 to 385). -/
def originInvalid (o : String) : Bool :=
  (!strStartsWith o "http://" && !strStartsWith o "https://") || strEndsWith o "/"

/-- the first origin-validation error of the loop in createCsrfProtect
(server.ts lines 375 to 385); messages abbreviated to their first line. -/
def findOriginError : List String → Option String
  | [] => none
  | o :: rest =>
      if !strStartsWith o "http://" && !strStartsWith o "https://" then
        some "Invalid origin in allowedOrigins: missing protocol"
      else if strEndsWith o "/" then
        some "Invalid origin in allowedOrigins: trailing slash"
      else findOriginError rest

/-- the resolved allow-list (server.ts lines 366 to 372). -/
def resolvedOrigins (options : CsrfProtectOptions) : List String :=
  match options.allowedOrigins with
  | OriginsInput.arr l => l
  | OriginsInput.str s => parseAllowedOrigins s
  | OriginsInput.undef => []

/-- the configuration object resolved by createCsrfProtect on success
(server.ts lines 390 to 407). -/
def resolvedConfig (options : CsrfProtectOptions) : Config :=
  { cookieName := options.cookieName.getD "csrf-token"
    headerName := options.headerName.getD "x-csrf-token"
    methods := options.pageMethods.getD ["POST", "PUT", "PATCH", "DELETE"]
    apiMethods := options.apiMethods.getD ["POST", "PUT", "PATCH", "DELETE"]
    secret := options.secret
    ttlSeconds := options.ttlSeconds.getD 900
    allowedSkewSeconds := options.allowedSkewSeconds.getD 60
    allowedOrigins := resolvedOrigins options
    tokenRotationGracePeriod := options.tokenRotationGracePeriod.getD 30 }

/-- createCsrfProtect (server.ts lines 338 to 424) up to returning the
middleware closure: the eager validation and the resolution of the
configuration; a throw is the error case, messages abbreviated to their
first line.  isProduction models process.env.NODE_ENV equal to
"production"; bufferAvailable selects the codec branch, and the base64
validity check can only fail on the atob branch. -/
def createCsrfProtect (isProduction bufferAvailable : Bool)
    (options : CsrfProtectOptions) : Except String Config :=
  if options.secret == "" then Except.error "CSRF secret is required"
  else if options.secret.data.length < 32 then
    Except.error "CSRF secret must be at least 32 characters"
  else if !bufferAvailable && !atobAccepts options.secret then
    Except.error "CSRF secret must be valid base64"
  else
    match findOriginError (resolvedOrigins options) with
    | some e => Except.error e
    | none =>
        if ((options.cookie.bind (fun c => c.sameSite)).getD "strict" == "none") &&
            !((options.cookie.bind (fun c => c.secure)).getD isProduction) then
          Except.error "Cookie sameSite none requires secure true"
        else
          Except.ok (resolvedConfig options)

theorem findOriginError_none_iff (l : List String) :
    findOriginError l = none ↔ ∀ o ∈ l, originInvalid o = false := by
  induction l with
  | nil => simp [findOriginError]
  | cons o rest ih =>
      unfold findOriginError
      by_cases h1 : (!strStartsWith o "http://" && !strStartsWith o "https://") = true
      · simp only [h1, if_true]
        constructor
        · intro h
          simp at h
        · intro h
          have := h o (by simp)
          rw [originInvalid, h1] at this
          simp at this
      · have h1' := Bool.not_eq_true _ |>.mp h1
        simp only [h1', Bool.false_eq_true, if_false]
        by_cases h2 : strEndsWith o "/" = true
        · simp only [h2, if_true]
          constructor
          · intro h
            simp at h
          · intro h
            have := h o (by simp)
            rw [originInvalid, h1', h2] at this
            simp at this
        · have h2' := Bool.not_eq_true _ |>.mp h2
          simp only [h2', Bool.false_eq_true, if_false, ih]
          constructor
          · intro h o2 ho2
            rcases List.mem_cons.mp ho2 with rfl | ho2
            · rw [originInvalid, h1', h2']
              rfl
            · exact h o2 ho2
          · intro h o2 ho2
            exact h o2 (by simp [ho2])

/-- C8 (amended): construction succeeds exactly when the secret is
present and at least 32 characters, the secret is valid base64 whenever
the runtime decodes with atob (in Buffer runtimes the lenient decoder
accepts every string, so the base64-validity rejection cannot fire), every
allowed origin starts with http or https and lacks a trailing slash, and
the resolved cookie options do not combine sameSite none with secure
false; otherwise construction throws. -/
theorem config_validation (isProduction bufferAvailable : Bool) (options : CsrfProtectOptions) :
    (∃ config, createCsrfProtect isProduction bufferAvailable options = Except.ok config) ↔
      (options.secret ≠ "" ∧ ¬options.secret.data.length < 32 ∧
        (bufferAvailable = false → atobAccepts options.secret = true) ∧
        (∀ o ∈ resolvedOrigins options, originInvalid o = false) ∧
        ¬((options.cookie.bind (fun c => c.sameSite)).getD "strict" = "none" ∧
          (options.cookie.bind (fun c => c.secure)).getD isProduction = false)) := by
  constructor
  · rintro ⟨config, hok⟩
    unfold createCsrfProtect at hok
    split at hok
    · exact absurd hok (by simp)
    · rename_i h1
      split at hok
      · exact absurd hok (by simp)
      · rename_i h2
        split at hok
        · exact absurd hok (by simp)
        · rename_i h3
          split at hok
          · exact absurd hok (by simp)
          · rename_i hfind
            split at hok
            · exact absurd hok (by simp)
            · rename_i h5
              refine ⟨by simpa using h1, h2, ?_, (findOriginError_none_iff _).mp hfind, ?_⟩
              · intro hbuf
                by_contra hatob
                have hatob' : atobAccepts options.secret = false :=
                  Bool.not_eq_true _ |>.mp hatob
                exact h3 (by simp [hbuf, hatob'])
              · rintro ⟨hss, hsec⟩
                exact h5 (by simp [hss, hsec])
  · rintro ⟨h1, h2, h3, h4, h5⟩
    have b1 : (options.secret == "") = false := by simpa using h1
    have b3 : (!bufferAvailable && !atobAccepts options.secret) = false := by
      cases hbuf : bufferAvailable with
      | true => simp
      | false => simp [h3 hbuf]
    have hfind : findOriginError (resolvedOrigins options) = none :=
      (findOriginError_none_iff _).mpr h4
    have b5 : (((options.cookie.bind (fun c => c.sameSite)).getD "strict" == "none") &&
        !((options.cookie.bind (fun c => c.secure)).getD isProduction)) = false := by
      by_cases hss : (options.cookie.bind (fun c => c.sameSite)).getD "strict" = "none"
      · cases hsec : (options.cookie.bind (fun c => c.secure)).getD isProduction with
        | false => exact absurd ⟨hss, hsec⟩ h5
        | true => simp [hsec]
      · have hss' : ((options.cookie.bind (fun c => c.sameSite)).getD "strict" == "none") = false := by
          simpa using hss
        simp [hss']
    refine ⟨resolvedConfig options, ?_⟩
    unfold createCsrfProtect
    simp only [b1, Bool.false_eq_true, if_false, h2, b3, hfind, b5]

/-- C8 counterexample: with Buffer available, a 32-character secret that is
not valid base64 does not make construction throw, contrary to the claim:
the lenient Buffer decoder accepts every string, so the try/catch around
base64ToBytes never fires in that runtime. -/
theorem config_validation_counterexample :
    atobAccepts "!!!!!!!!!!!!!!!!!!!!!!!!!!!!!!!!" = false ∧
    createCsrfProtect false true { secret := "!!!!!!!!!!!!!!!!!!!!!!!!!!!!!!!!" } =
      Except.ok (resolvedConfig { secret := "!!!!!!!!!!!!!!!!!!!!!!!!!!!!!!!!" }) ∧
    (resolvedConfig { secret := "!!!!!!!!!!!!!!!!!!!!!!!!!!!!!!!!" }).secret.data.length = 32 :=
  ⟨rfl, rfl, rfl⟩

/-! The always-signed engine.  The following Signed variants follow the
spec's reading of C10: they are csrfProtect with every branch guarded by
"if no secret is configured" removed, so that validation always goes
through the grace-period-aware signed check and issuance always goes
through getOrCreateSignedToken.  C10 states the engine equals this
variant for every configuration a successful construction can produce. -/

/-- apiValidate without the plain-equality fallback. -/
def apiValidateSigned (config : Config) (hmac : Hmac) (now : Nat) (request : Request)
    (response : Response) : Except String String × Response :=
  if config.apiMethods.contains request.method then
    if !optTruthy request.headerToken || !optTruthy request.cookieValue then
      (Except.error "CSRF token is required", response)
    else
      if verifyTokenWithGracePeriod hmac now request.cookieValue request.headerToken config.secret
          config.ttlSeconds config.allowedSkewSeconds then
        (Except.ok ((parseMultipleTokens request.cookieValue).getD 0 ""), response)
      else (Except.error "Invalid CSRF token", response)
  else
    (Except.ok (request.cookieValue.getD ""), response)

/-- apiAfterOrigin delegating to the signed-only validation. -/
def apiAfterOriginSigned (config : Config) (hmac : Hmac) (now : Nat) (request : Request)
    (response : Response) (isAllowedOrigin : Bool) : Except String String × Response :=
  if !isAllowedOrigin && !secFetchSiteOk request.secFetchSite then
    (Except.error "Invalid Sec-Fetch-Site header", response)
  else if !isAllowedOrigin && !secFetchModeOk request.secFetchMode then
    (Except.error "Invalid Sec-Fetch-Mode header", response)
  else if !isAllowedOrigin && !secFetchDestOk request.secFetchDest then
    (Except.error "Invalid Sec-Fetch-Dest header", response)
  else if !isAllowedOrigin && strIncludes "text/html" (jsToLower request.accept) then
    (Except.error "Invalid accept header for API", response)
  else
    apiValidateSigned config hmac now request response

/-- safeMethodIssue without the unsigned issuance fallback. -/
def safeMethodIssueSigned (config : Config) (hmac : Hmac) (now : Nat) (freshNonce : List Nat)
    (request : Request) (response : Response) : Except String String × Response :=
  if isDocNavigation request then
    okPair (getOrCreateSignedToken config hmac now freshNonce request response)
  else if isSoftNavigation request then
    okPair (getOrCreateSignedToken config hmac now freshNonce request response)
  else
    (Except.ok "", response)

/-- pageValidate without the plain-equality fallback. -/
def pageValidateSigned (config : Config) (hmac : Hmac) (now : Nat) (request : Request) :
    Option String :=
  if config.methods.contains request.method then
    if !optTruthy request.headerToken || !optTruthy request.cookieValue then
      some "CSRF token is required"
    else
      if verifyTokenWithGracePeriod hmac now request.cookieValue request.headerToken config.secret
          config.ttlSeconds config.allowedSkewSeconds then none
      else some "Invalid CSRF token"
  else none

/-- pageTail without the unsigned issuance fallback. -/
def pageTailSigned (config : Config) (hmac : Hmac) (now : Nat) (freshNonce : List Nat)
    (request : Request) (response : Response) : Except String String × Response :=
  if optTruthy request.cookieValue then (Except.ok (request.cookieValue.getD ""), response)
  else okPair (getOrCreateSignedToken config hmac now freshNonce request response)

/-- the engine with every no-secret fallback removed. -/
def csrfProtectSigned (config : Config) (hmac : Hmac) (parseOrigin : String → Option String)
    (now : Nat) (freshNonce : List Nat) (request : Request) (response : Response) :
    Except String String × Response :=
  if isApiPath request.pathname then
    if request.method == "OPTIONS" then
      if isCrossOriginB request && !isAllowedOriginB config parseOrigin request then
        (Except.error "Origin not allowed for CORS preflight", response)
      else if isAllowedOriginB config parseOrigin request then
        (Except.ok "", preflightCorsHeaders config (candidateOriginOf parseOrigin request) response)
      else
        (Except.ok "", response)
    else if isCrossOriginB request && !isAllowedOriginB config parseOrigin request then
      (Except.error "Cross-origin request blocked", response)
    else if isAllowedOriginB config parseOrigin request then
      apiAfterOriginSigned config hmac now request
        (allowedOriginCorsHeaders (candidateOriginOf parseOrigin request) response) true
    else
      apiAfterOriginSigned config hmac now request response false
  else if request.method == "GET" || request.method == "HEAD" || request.method == "OPTIONS" then
    safeMethodIssueSigned config hmac now freshNonce request response
  else
    match pageValidateSigned config hmac now request with
    | some e => (Except.error e, response)
    | none => pageTailSigned config hmac now freshNonce request response

theorem apiValidate_signed (config : Config) (hmac : Hmac) (now : Nat) (request : Request)
    (hsec : (config.secret != "") = true) :
    ∀ response : Response, apiValidate config hmac now request response =
      apiValidateSigned config hmac now request response := by
  intro response
  unfold apiValidate apiValidateSigned
  simp only [hsec, if_true]

theorem apiAfterOrigin_signed (config : Config) (hmac : Hmac) (now : Nat) (request : Request)
    (hsec : (config.secret != "") = true) :
    ∀ (response : Response) (b : Bool), apiAfterOrigin config hmac now request response b =
      apiAfterOriginSigned config hmac now request response b := by
  intro response b
  unfold apiAfterOrigin apiAfterOriginSigned
  simp only [apiValidate_signed config hmac now request hsec]

theorem safeMethodIssue_signed (config : Config) (hmac : Hmac) (now : Nat)
    (freshNonce : List Nat) (request : Request) (hsec : (config.secret != "") = true) :
    ∀ response : Response, safeMethodIssue config hmac now freshNonce request response =
      safeMethodIssueSigned config hmac now freshNonce request response := by
  intro response
  unfold safeMethodIssue safeMethodIssueSigned
  simp only [hsec, if_true]

theorem pageValidate_signed (config : Config) (hmac : Hmac) (now : Nat) (request : Request)
    (hsec : (config.secret != "") = true) :
    pageValidate config hmac now request = pageValidateSigned config hmac now request := by
  unfold pageValidate pageValidateSigned
  simp only [hsec, if_true]

theorem pageTail_signed (config : Config) (hmac : Hmac) (now : Nat)
    (freshNonce : List Nat) (request : Request) (hsec : (config.secret != "") = true) :
    ∀ response : Response, pageTail config hmac now freshNonce request response =
      pageTailSigned config hmac now freshNonce request response := by
  intro response
  unfold pageTail pageTailSigned
  simp only [hsec, if_true]

/-- C10: every configuration a successful createCsrfProtect call produces
carries a non-empty secret, and for such a configuration the engine equals
the always-signed engine on every request: the plain-equality validation
fallback and the unsigned-token issuance fallback are unreachable. -/
theorem signed_paths_only (isProduction bufferAvailable : Bool)
    (options : CsrfProtectOptions) (config : Config)
    (hok : createCsrfProtect isProduction bufferAvailable options = Except.ok config) :
    config.secret ≠ "" ∧
    ∀ (hmac : Hmac) (parseOrigin : String → Option String) (now : Nat) (freshNonce : List Nat)
      (request : Request) (response : Response),
      csrfProtect config hmac parseOrigin now freshNonce request response =
        csrfProtectSigned config hmac parseOrigin now freshNonce request response := by
  have hsecne : config.secret ≠ "" := by
    unfold createCsrfProtect at hok
    split at hok
    · exact absurd hok (by simp)
    · rename_i h1
      split at hok
      · exact absurd hok (by simp)
      · split at hok
        · exact absurd hok (by simp)
        · split at hok
          · exact absurd hok (by simp)
          · split at hok
            · exact absurd hok (by simp)
            · have hcfg : resolvedConfig options = config := by
                injection hok
              rw [show config.secret = options.secret by rw [show config = resolvedConfig options from hcfg.symm]; rfl]
              simpa using h1
  refine ⟨hsecne, ?_⟩
  have hsec : (config.secret != "") = true := by simpa using hsecne
  intro hmac parseOrigin now freshNonce request response
  unfold csrfProtect csrfProtectSigned
  rw [pageValidate_signed config hmac now request hsec]
  simp only [apiAfterOrigin_signed config hmac now request hsec,
    safeMethodIssue_signed config hmac now freshNonce request hsec,
    pageTail_signed config hmac now freshNonce request hsec]

/-- concrete options used by the C10 witness. -/
def c10Options : CsrfProtectOptions :=
  { secret := "c2VjcmV0LXNlY3JldC1zZWNyZXQtc2VjcmV0LTEyMzQ1Ng" }

/-- concrete non-API POST request used by the C10 witness; the missing
header token exercises the validation entry of the page branch. -/
def c10Request : Request :=
  { method := "POST", pathname := "/otp/verify",
    nextUrlOrigin := "https://site.example",
    originHeader := "https://site.example", refererHeader := "",
    secFetchSite := "same-origin", accept := "application/json", secFetchDest := "empty",
    secFetchMode := "cors", nextUrlHeader := "",
    cookieValue := some "tok", headerToken := some "tok" }

/-- C10 witness: a successful construction at concrete options yields a
configuration with a non-empty secret on which the engine and the
always-signed engine agree at a concrete request. -/
theorem signed_paths_only_witness :
    createCsrfProtect false true c10Options = Except.ok (resolvedConfig c10Options) ∧
    (resolvedConfig c10Options).secret ≠ "" ∧
    csrfProtect (resolvedConfig c10Options) (fun m _ => m) (fun _ => none) 0 [] c10Request
        ⟨[], none⟩ =
      csrfProtectSigned (resolvedConfig c10Options) (fun m _ => m) (fun _ => none) 0 []
        c10Request ⟨[], none⟩ :=
  ⟨rfl,
    (signed_paths_only false true c10Options (resolvedConfig c10Options) rfl).1,
    (signed_paths_only false true c10Options (resolvedConfig c10Options) rfl).2
      (fun m _ => m) (fun _ => none) 0 [] c10Request ⟨[], none⟩⟩

/-- rotateAndSetCsrfToken (server.ts lines 713 to 765): mint a fresh
signed token (inlined in the source, identical to generateSignedToken),
keep the prior tokens still within the grace period, put the combined
value (new token first) in the cookie and the new token alone in the
header, and return the new token; cookie attributes are not modelled. -/
def rotateAndSetCsrfToken (hmac : Hmac) (now : Nat) (nonceBytes : List Nat) (secret : String)
    (oldToken : Option String) (cookieName headerName : String) (gracePeriod : Int)
    (response : Response) : String × Response :=
  let newToken := generateSignedToken hmac now nonceBytes secret
  let validOldTokens := cleanupExpiredTokens now (parseMultipleTokens oldToken) secret gracePeriod
  let combinedTokenValue := combineTokens (newToken :: validOldTokens)
  (newToken, setHeader headerName newToken (setCsrfTokenCookie combinedTokenValue response))

/-- the retention test of cleanupExpiredTokens as a predicate on one
token: three dot segments, a 4-byte decoded timestamp, and a decoded
issuedAt with now - issuedAt at most the grace period. -/
def withinGraceB (now : Nat) (gracePeriod : Int) (t : String) : Bool :=
  match jsSplit '.' t with
  | [_, tsPart, _] =>
      (fromBase64Url tsPart).length == 4 &&
        decide ((now : Int) - bigEndianBytesToU32 (fromBase64Url tsPart) ≤ gracePeriod)
  | _ => false

theorem cleanupExpiredTokens_eq_filter (now : Nat) (tokens : List String) (secret : String)
    (g : Int) :
    cleanupExpiredTokens now tokens secret g = tokens.filter (withinGraceB now g) := by
  induction tokens with
  | nil => rfl
  | cons t rest ih =>
      unfold cleanupExpiredTokens
      rcases hs : jsSplit '.' t with _ | ⟨a, _ | ⟨b, _ | ⟨c, _ | ⟨d, r⟩⟩⟩⟩
      · simp [List.filter_cons, withinGraceB, hs, ih]
      · simp [List.filter_cons, withinGraceB, hs, ih]
      · simp [List.filter_cons, withinGraceB, hs, ih]
      · by_cases hlen : (fromBase64Url b).length = 4
        · by_cases hin : ((now : Int) - bigEndianBytesToU32 (fromBase64Url b) ≤ g)
          · simp [List.filter_cons, withinGraceB, hs, ih, hlen, hin]
          · simp [List.filter_cons, withinGraceB, hs, ih, hlen, hin]
        · simp [List.filter_cons, withinGraceB, hs, ih, hlen]
      · simp [List.filter_cons, withinGraceB, hs, ih]

/-- C6: rotateAndSetCsrfToken mints a fresh signed token and sets the
cookie to that token followed by exactly those prior tokens whose decoded
issuedAt satisfies now - issuedAt at most the grace period (prior tokens
without three dot segments or without a 4-byte decoded timestamp are
dropped silently), joined by bars with the new token first; the response
header receives the new token alone; and the returned value is the new
token. -/
theorem rotation_shape (hmac : Hmac) (now : Nat) (nonceBytes : List Nat) (secret : String)
    (oldToken : Option String) (cookieName headerName : String) (gracePeriod : Int)
    (response : Response) :
    rotateAndSetCsrfToken hmac now nonceBytes secret oldToken cookieName headerName gracePeriod
        response =
      (generateSignedToken hmac now nonceBytes secret,
        { headers := response.headers ++
              [(headerName, generateSignedToken hmac now nonceBytes secret)],
          cookie := some (combineTokens (generateSignedToken hmac now nonceBytes secret ::
              (parseMultipleTokens oldToken).filter (withinGraceB now gracePeriod))) }) := by
  unfold rotateAndSetCsrfToken
  rw [cleanupExpiredTokens_eq_filter]
  rfl

theorem apiAfterOrigin_site_error (config : Config) (hmac : Hmac) (now : Nat)
    (request : Request) (response : Response)
    (hsite : secFetchSiteOk request.secFetchSite = false) :
    apiAfterOrigin config hmac now request response false =
      (Except.error "Invalid Sec-Fetch-Site header", response) := by
  unfold apiAfterOrigin
  simp [hsite]

theorem apiAfterOrigin_mode_error (config : Config) (hmac : Hmac) (now : Nat)
    (request : Request) (response : Response)
    (hsite : secFetchSiteOk request.secFetchSite = true)
    (hmode : secFetchModeOk request.secFetchMode = false) :
    apiAfterOrigin config hmac now request response false =
      (Except.error "Invalid Sec-Fetch-Mode header", response) := by
  unfold apiAfterOrigin
  simp [hsite, hmode]

theorem apiAfterOrigin_dest_error (config : Config) (hmac : Hmac) (now : Nat)
    (request : Request) (response : Response)
    (hsite : secFetchSiteOk request.secFetchSite = true)
    (hmode : secFetchModeOk request.secFetchMode = true)
    (hdest : secFetchDestOk request.secFetchDest = false) :
    apiAfterOrigin config hmac now request response false =
      (Except.error "Invalid Sec-Fetch-Dest header", response) := by
  unfold apiAfterOrigin
  simp [hsite, hmode, hdest]

theorem apiAfterOrigin_accept_rejects (config : Config) (hmac : Hmac) (now : Nat)
    (request : Request) (response : Response)
    (haccept : strIncludes "text/html" (jsToLower request.accept) = true) :
    (apiAfterOrigin config hmac now request response false).1.isOk = false := by
  by_cases hsite : secFetchSiteOk request.secFetchSite = true
  · by_cases hmode : secFetchModeOk request.secFetchMode = true
    · by_cases hdest : secFetchDestOk request.secFetchDest = true
      · unfold apiAfterOrigin
        simp only [hsite, hmode, hdest, haccept, Bool.not_true, Bool.and_false, Bool.and_true,
          Bool.not_false, Bool.false_eq_true, if_false, if_true]
        rfl
      · rw [apiAfterOrigin_dest_error config hmac now request response hsite hmode
          (Bool.not_eq_true _ |>.mp hdest)]
        rfl
    · rw [apiAfterOrigin_mode_error config hmac now request response hsite
        (Bool.not_eq_true _ |>.mp hmode)]
      rfl
  · rw [apiAfterOrigin_site_error config hmac now request response
      (Bool.not_eq_true _ |>.mp hsite)]
    rfl

/-- C3 (amended): for a non-OPTIONS request to an API/internal path whose
candidate origin is not allow-listed and which passes the cross-origin
gate (a request failing that gate is rejected earlier with the
cross-origin error, not with a header-specific one), a Sec-Fetch-Site,
Sec-Fetch-Mode or Sec-Fetch-Dest value outside the allowed sets rejects
the request with the matching header-specific error; every
non-allow-listed such request whose Accept header contains text/html is
rejected; and for an allow-listed candidate origin the Fetch-Metadata and
Accept checks are skipped entirely: the outcome does not depend on those
four headers. -/
theorem fetch_metadata_enforcement (config : Config) (hmac : Hmac)
    (parseOrigin : String → Option String) (now : Nat) (freshNonce : List Nat)
    (request : Request) (response : Response)
    (hapi : isApiPath request.pathname = true)
    (hopt : (request.method == "OPTIONS") = false) :
    (isAllowedOriginB config parseOrigin request = false →
     isCrossOriginB request = false →
     (secFetchSiteOk request.secFetchSite = false →
       csrfProtect config hmac parseOrigin now freshNonce request response =
         (Except.error "Invalid Sec-Fetch-Site header", response)) ∧
     (secFetchSiteOk request.secFetchSite = true →
      secFetchModeOk request.secFetchMode = false →
       csrfProtect config hmac parseOrigin now freshNonce request response =
         (Except.error "Invalid Sec-Fetch-Mode header", response)) ∧
     (secFetchSiteOk request.secFetchSite = true →
      secFetchModeOk request.secFetchMode = true →
      secFetchDestOk request.secFetchDest = false →
       csrfProtect config hmac parseOrigin now freshNonce request response =
         (Except.error "Invalid Sec-Fetch-Dest header", response))) ∧
    (isAllowedOriginB config parseOrigin request = false →
     strIncludes "text/html" (jsToLower request.accept) = true →
     (csrfProtect config hmac parseOrigin now freshNonce request response).1.isOk = false) ∧
    (isAllowedOriginB config parseOrigin request = true →
     ∀ s m d a, csrfProtect config hmac parseOrigin now freshNonce
         { request with secFetchSite := s, secFetchMode := m, secFetchDest := d, accept := a }
         response =
       csrfProtect config hmac parseOrigin now freshNonce request response) := by
  refine ⟨?_, ?_, ?_⟩
  · intro hallow hcross
    have hgate : (isCrossOriginB request && !isAllowedOriginB config parseOrigin request) = false := by
      simp [hcross]
    have hmain := csrfProtect_api_nonoptions config hmac parseOrigin now freshNonce request
      response hapi hopt hgate
    rw [hallow] at hmain
    simp only [Bool.false_eq_true, if_false] at hmain
    refine ⟨?_, ?_, ?_⟩
    · intro hsite
      rw [hmain, apiAfterOrigin_site_error config hmac now request response hsite]
    · intro hsite hmode
      rw [hmain, apiAfterOrigin_mode_error config hmac now request response hsite hmode]
    · intro hsite hmode hdest
      rw [hmain, apiAfterOrigin_dest_error config hmac now request response hsite hmode hdest]
  · intro hallow haccept
    by_cases hcross : isCrossOriginB request = true
    · have hgate : (isCrossOriginB request && !isAllowedOriginB config parseOrigin request) = true := by
        simp [hcross, hallow]
      unfold csrfProtect
      simp only [hapi, if_true, hopt, Bool.false_eq_true, if_false, hgate]
      rfl
    · have hgate : (isCrossOriginB request && !isAllowedOriginB config parseOrigin request) = false := by
        simp [Bool.not_eq_true _ |>.mp hcross]
      have hmain := csrfProtect_api_nonoptions config hmac parseOrigin now freshNonce request
        response hapi hopt hgate
      rw [hallow] at hmain
      simp only [Bool.false_eq_true, if_false] at hmain
      rw [hmain]
      exact apiAfterOrigin_accept_rejects config hmac now request response haccept
  · intro hallow s m d a
    have hgate : (isCrossOriginB request && !isAllowedOriginB config parseOrigin request) = false := by
      simp [hallow]
    have hmain := csrfProtect_api_nonoptions config hmac parseOrigin now freshNonce request
      response hapi hopt hgate
    have hmain2 := csrfProtect_api_nonoptions config hmac parseOrigin now freshNonce
      { request with secFetchSite := s, secFetchMode := m, secFetchDest := d, accept := a }
      response hapi hopt hgate
    rw [hmain, hmain2, hallow]
    rw [show isAllowedOriginB config parseOrigin
        { request with secFetchSite := s, secFetchMode := m, secFetchDest := d, accept := a } =
      isAllowedOriginB config parseOrigin request from rfl, hallow]
    simp only [if_true, apiAfterOrigin_allowed]
    rfl

/-- concrete configuration used by the C3 amended-claim witness and the C3
counterexample. -/
def c3Config : Config :=
  { cookieName := "csrf-token", headerName := "x-csrf-token",
    methods := ["POST", "PUT", "PATCH", "DELETE"],
    apiMethods := ["POST", "PUT", "PATCH", "DELETE"],
    secret := "c2VjcmV0LXNlY3JldC1zZWNyZXQtc2VjcmV0LTEyMzQ1Ng",
    ttlSeconds := 900, allowedSkewSeconds := 60,
    allowedOrigins := [], tokenRotationGracePeriod := 30 }

/-- concrete cross-origin POST with an invalid Sec-Fetch-Site, used to
refute C3 as stated. -/
def c3Request : Request :=
  { method := "POST", pathname := "/api/x",
    nextUrlOrigin := "https://site.example",
    originHeader := "https://evil.example", refererHeader := "",
    secFetchSite := "cross-site", accept := "", secFetchDest := "empty",
    secFetchMode := "cors", nextUrlHeader := "", cookieValue := none, headerToken := none }

/-- C3 counterexample: a non-OPTIONS API request with a non-allow-listed
candidate origin and an invalid Sec-Fetch-Site is rejected with the
cross-origin error, not with a header-specific error, because the
cross-origin gate fires first. -/
theorem fetch_metadata_counterexample :
    isApiPath c3Request.pathname = true ∧
    (c3Request.method == "OPTIONS") = false ∧
    isAllowedOriginB c3Config (fun _ => none) c3Request = false ∧
    secFetchSiteOk c3Request.secFetchSite = false ∧
    (csrfProtect c3Config (fun _ _ => []) (fun _ => none) 0 [] c3Request ⟨[], none⟩).1 =
      Except.error "Cross-origin request blocked" ∧
    ("Cross-origin request blocked" : String) ≠ "Invalid Sec-Fetch-Site header" ∧
    ("Cross-origin request blocked" : String) ≠ "Invalid Sec-Fetch-Mode header" ∧
    ("Cross-origin request blocked" : String) ≠ "Invalid Sec-Fetch-Dest header" :=
  ⟨rfl, rfl, rfl, rfl, rfl, by decide, by decide, by decide⟩

/-- concrete same-origin POST with an invalid Sec-Fetch-Site for the C3
witness. -/
def c3wRequest : Request :=
  { method := "POST", pathname := "/api/x",
    nextUrlOrigin := "https://site.example",
    originHeader := "https://site.example", refererHeader := "",
    secFetchSite := "cross-site", accept := "", secFetchDest := "empty",
    secFetchMode := "cors", nextUrlHeader := "", cookieValue := none, headerToken := none }

/-- C3 witness: a same-origin request (passing the cross-origin gate) with
an invalid Sec-Fetch-Site receives the header-specific rejection. -/
theorem fetch_metadata_enforcement_witness :
    csrfProtect c3Config (fun _ _ => []) (fun _ => none) 0 [] c3wRequest ⟨[], none⟩ =
      (Except.error "Invalid Sec-Fetch-Site header", (⟨[], none⟩ : Response)) :=
  (((fetch_metadata_enforcement c3Config (fun _ _ => []) (fun _ => none) 0 [] c3wRequest
    ⟨[], none⟩ rfl rfl).1 rfl rfl).1) rfl

end EntrostatCsrf
